import Mathlib

/-!
Shallow embedding of the stream-session and frame-scheduling core of the
`cream` repository (file `src/cream_modal/app.py`, the `websocket_server`
ASGI app: `websocket_endpoint`, `process_and_broadcast_frame` and
`broadcast_frame`).

The embedding is a state-transition system.  One `Event` corresponds to one
atomic execution region of the Python code between suspension points:
a connection being accepted and its role-specific setup running, one inbound
message being handled by the dispatcher, a `WebSocketDisconnect` being
handled, or an in-flight `process_and_broadcast_frame` task resuming after
the awaited transformer call with either a result or an exception (the
`taskComplete` event collapses the task body: it carries the transformer
outcome chosen by the environment).

Frames and prompts are the base64/utf-8 strings the code manipulates; frame
payloads are modelled as `List Char` so that the `startswith`/`split`/`len`
operations of the source have direct executable counterparts.  Python floats
for `strength` are modelled as rationals: every comparison the code performs
on them (`0.1 <= v <= 1.0`, and the 1.9 MB threshold, see `frameTooLarge`)
has the same outcome on the exactly-representable inputs involved.

`asyncio.create_task` is modelled by appending a `FlightTask` to
`ServerState.tasks`; the task list is the set of in-flight
`process_and_broadcast_frame` invocations.  The Python code passes the live
viewers list by reference into the task; while the stream keeps its registry
entry that alias and the registry's viewer list are the same object, so the
model reads the registry's current viewer list at completion time (and an
empty list when the registry entry was deleted).
-/

namespace Cream

abbrev ConnId := String
abbrev StreamId := String
abbrev FrameData := List Char

/-- The `DEFAULT_STYLE_PROMPT` constant of app.py. -/
def defaultStylePrompt : String := "A painting in the style of van Gogh\'s \'Starry Night\'"

/-- Default negative prompt installed when a stream session is initialized. -/
def defaultNegativePrompt : String := "ugly, deformed, disfigured, poor details, bad anatomy"

/-- Keys of the `global_processors` dictionary.  In `init_global_processors`
the standard processor's construction is commented out, so only `"lightning"`
is registered. -/
def globalProcessors : List String := ["lightning"]

/-- The float `0.1` (lower strength bound), as the normalized rational
`1/10` given directly by numerator and denominator so that kernel evaluation
of the model never has to normalize a fraction. -/
def minStrength : ℚ := ⟨1, 10, by norm_num, by norm_num⟩

/-- The float `1.0` (upper strength bound). -/
def maxStrength : ℚ := 1

/-- The float `0.9` (default strength), as the normalized rational `9/10`. -/
def defaultStrength : ℚ := ⟨9, 10, by norm_num, by norm_num⟩

/-- The `processor_type not in global_processors` fallback applied on connect. -/
def validateProcessor (p : String) : String :=
  if p ∈ globalProcessors then p else "standard"

/-- Does `pat` occur at the start of `l`?  (Python `str.startswith` on the
frame payload.) -/
def startsWithList : List Char → List Char → Bool
  | [], _ => true
  | _ :: _, [] => false
  | p :: ps, c :: cs => p == c && startsWithList ps cs

/-- Python `frame.split(',', 1)[1]`: everything after the first comma, or the
`IndexError` (`none`) when no comma occurs. -/
def splitAfterComma : List Char → Option FrameData
  | [] => none
  | c :: cs => if c = ',' then some cs else splitAfterComma cs

/-- The `data:` marker tested by `startswith('data:')`. -/
def dataMark : FrameData := ("data:").toList

/-- The `data:image/jpeg;base64,` marker prepended to processed frames. -/
def jpegMark : FrameData := ("data:image/jpeg;base64,").toList

/-- Frame-payload preprocessing of the `frame` command: a data URL is reduced
to its base64 part (with `none` for the `IndexError` → error-reply path);
other payloads pass through unchanged. -/
def stripDataUrl (f : FrameData) : Option FrameData :=
  if startsWithList dataMark f then splitAfterComma f else some f

/-- The step `if not processed_base64.startswith('data:'): prepend the jpeg data-URL
marker` (applied both when storing and when broadcasting processed frames). -/
def ensureDataUrl (f : FrameData) : FrameData :=
  if startsWithList dataMark f then f else jpegMark ++ f

/-- The oversize test `len(frame) / (1024*1024) > 1.9` of the `frame`
command, made exact over the integers: `len/2^20 > 19/10  ↔  10*len > 19*2^20`.
(No integer length falls between the float and the rational threshold.) -/
def frameTooLarge (f : FrameData) : Bool :=
  decide (10 * f.length > 19922944)

/-- One per-stream session record (`streams[stream_id]` in app.py). -/
structure Session where
  processing : Bool
  latestFrame : Option FrameData
  latestProcessedFrame : Option FrameData
  stylePrompt : String
  negativePrompt : String
  processorType : String
  strength : ℚ
  streamEnded : Bool
deriving DecidableEq

/-- The session record installed on first broadcaster connect. -/
def initSession (p : String) : Session :=
  { processing := false
    latestFrame := none
    latestProcessedFrame := none
    stylePrompt := defaultStylePrompt
    negativePrompt := defaultNegativePrompt
    processorType := p
    strength := defaultStrength
    streamEnded := false }

/-- One registry entry (`active_connections[stream_id]`): the three role
lists. -/
structure Conns where
  broadcasters : List ConnId
  viewers : List ConnId
  broadcasterViewers : List ConnId
deriving DecidableEq

def emptyConns : Conns := ⟨[], [], []⟩

/-- One in-flight `process_and_broadcast_frame` task.  `frameData` is the
`frame_data` argument (`none` models the `None` latest frame a freshly
re-created session can hand to the completion-hook restart). -/
structure FlightTask where
  streamId : StreamId
  frameData : Option FrameData
  processorType : String
deriving DecidableEq

/-- Error replies, by site (the code sends `{"type": "error", ...}` with a
message text; the text itself carries no further state). -/
inductive ErrKind
  | emptyFrame
  | invalidDataUrl
  | frameTooLarge
  | emptyPrompt
  | invalidProcessor
  | invalidStrength
  | processingFailed
deriving DecidableEq

/-- Outbound message envelopes sent by the core. -/
inductive Msg
  | processorInfo (processorType : String)
  | styleUpdated (prompt : String) (processorType : Option String)
  | frameMsg (streamId : StreamId) (frame : FrameData) (isOriginal : Bool)
      (processed : Bool) (processorType : String) (stylePrompt : Option String)
      (strength : Option ℚ)
  | frameSkipped
  | errorOut (kind : ErrKind)
  | invalidFormat
  | promptUpdated (prompt : String)
  | negativePromptUpdated (negativePrompt : String)
  | processorUpdated (processorType : String)
  | strengthUpdated (strength : ℚ)
  | streamEndedConfirmation
  | streamEnded (streamId : Option StreamId)
  | streamStatus (streamId : Option StreamId) (active : Bool) (ended : Bool)
  | pong
  | subscriptionConfirmed
  | unsubscriptionConfirmed
  | latestFrame (frame : Option FrameData)
deriving DecidableEq

/-- One delivery: which connection gets which message. -/
structure Out where
  target : ConnId
  msg : Msg
deriving DecidableEq

/-- Inbound messages after JSON decoding.  `noType` is a message without a
`type` field; `unknown` is a message whose `type` matches no dispatcher arm.
Missing optional fields are represented by their `data.get` defaults
(`frame []`, `updatePrompt ""`, `updateStrength none`, ...). -/
inductive InMsg
  | frame (payload : FrameData)
  | updatePrompt (prompt : String)
  | updateNegativePrompt (negativePrompt : String)
  | updateProcessor (processorType : String)
  | updateStrength (value : Option ℚ)
  | endStream
  | ping
  | getStylePrompt
  | getProcessorInfo
  | getLatestFrame
  | subscribeProcessed
  | unsubscribeProcessed
  | checkStreamStatus (streamId : Option StreamId)
  | noType
  | unknown (t : String)
deriving DecidableEq

/-- Whole-server state: the registries (`active_connections`, `streams`),
the open websocket handlers (connection id ↦ its `client_type` and
`stream_id` path parameters), and the in-flight transformation tasks. -/
structure ServerState where
  activeConnections : StreamId → Option Conns
  streams : StreamId → Option Session
  openConns : ConnId → Option (String × StreamId)
  tasks : List FlightTask

/-- Pointwise function update (dictionary write / `del`). -/
def fupd {α β : Type} [DecidableEq α] (f : α → β) (k : α) (v : β) : α → β :=
  fun x => if x = k then v else f x

def initState : ServerState :=
  { activeConnections := fun _ => none
    streams := fun _ => none
    openConns := fun _ => none
    tasks := [] }

/-- External stimuli. -/
inductive Event
  | connect (conn : ConnId) (clientType : String) (streamId : StreamId)
      (processorTypeParam : String)
  | message (conn : ConnId) (m : InMsg)
  | disconnect (conn : ConnId)
  | taskComplete (idx : Nat) (result : Option FrameData)

/-- The `stream_ended` flag of `streams[r]`, `False` for unknown streams. -/
def streamEndedFlag (st : ServerState) (r : StreamId) : Bool :=
  match st.streams r with
  | some s => s.streamEnded
  | none => false

/-- The `is_active` computation shared by viewer connect and
`check_stream_status`: the stream id has a registry entry and a session, the
session is not ended, and the broadcaster list is non-empty.  (At viewer
connect the registry entry was just ensured, so the missing-entry arm never
fires there and the two source expressions coincide.) -/
def streamActiveFlag (st : ServerState) (r : StreamId) : Bool :=
  match st.activeConnections r, st.streams r with
  | some reg, some s => !s.streamEnded && !reg.broadcasters.isEmpty
  | _, _ => false

/-- Current viewers of the registry entry ([] when no entry). -/
def viewersNow (st : ServerState) (sid : StreamId) : List ConnId :=
  match st.activeConnections sid with
  | some reg => reg.viewers
  | none => []

/-- Current echo subscribers of the registry entry ([] when no entry). -/
def bviewersNow (st : ServerState) (sid : StreamId) : List ConnId :=
  match st.activeConnections sid with
  | some reg => reg.broadcasterViewers
  | none => []

/-- Write `streams[sid] = s`. -/
def setSession (st : ServerState) (sid : StreamId) (s : Session) : ServerState :=
  { st with streams := fupd st.streams sid (some s) }

/-- Write `active_connections[sid] = reg`. -/
def setConns (st : ServerState) (sid : StreamId) (reg : Conns) : ServerState :=
  { st with activeConnections := fupd st.activeConnections sid (some reg) }

/-- The deletion `del active_connections[sid]` followed by `del streams[sid]` (the latter
is already guarded by `if stream_id in streams` in the source; deleting an
absent key is a no-op in the function model). -/
def dropStream (st : ServerState) (sid : StreamId) : ServerState :=
  { st with activeConnections := fupd st.activeConnections sid none
            streams := fupd st.streams sid none }

/-- Append a freshly created task (`asyncio.create_task`). -/
def spawnTask (st : ServerState) (t : FlightTask) : ServerState :=
  { st with tasks := st.tasks ++ [t] }

def regAddBroadcaster (reg : Conns) (c : ConnId) : Conns :=
  { reg with broadcasters := reg.broadcasters ++ [c] }

def regAddViewer (reg : Conns) (c : ConnId) : Conns :=
  { reg with viewers := reg.viewers ++ [c] }

def regAddBroadcasterViewer (reg : Conns) (c : ConnId) : Conns :=
  { reg with broadcasterViewers := reg.broadcasterViewers ++ [c] }

/-- Close a websocket handler without unregistering it (an uncaught exception
inside the message loop, e.g. the `KeyError` on `global_processors`, kills
the handler; the `except WebSocketDisconnect` cleanup does not run). -/
def closeConn (st : ServerState) (c : ConnId) : ServerState :=
  { st with openConns := fupd st.openConns c none }

/-- Messages sent to a freshly connected viewer (app.py lines 219-272):
a `stream_status` when the stream is not active; then, whenever the session
exists, the current style prompt, plus the cached processed frame when the
stream is active and the cache is non-empty. -/
def viewerHelloOuts (st : ServerState) (c : ConnId) (sid : StreamId) : List Out :=
  (if streamActiveFlag st sid then []
   else [⟨c, Msg.streamStatus none false (streamEndedFlag st sid)⟩])
  ++ (match st.streams sid with
      | none => []
      | some s =>
          ⟨c, Msg.styleUpdated s.stylePrompt (some s.processorType)⟩ ::
          (if streamActiveFlag st sid && !(s.latestProcessedFrame.getD []).isEmpty then
            [⟨c, Msg.frameMsg sid (s.latestProcessedFrame.getD []) false true
                s.processorType (some s.stylePrompt) (some s.strength)⟩]
           else []))

/-- Broadcaster connect (app.py lines 188-213): register the connection,
create the session with defaults or overwrite `processor_type` on an existing
one, reply with `processor_info`. -/
def broadcasterConnect (st : ServerState) (c : ConnId) (sid : StreamId)
    (p : String) : ServerState × List Out :=
  (setSession
    (setConns { st with openConns := fupd st.openConns c (some ("broadcaster", sid)) }
      sid (regAddBroadcaster ((st.activeConnections sid).getD emptyConns) c))
    sid
    (match st.streams sid with
     | none => initSession p
     | some s => { s with processorType := p }),
   [⟨c, Msg.processorInfo p⟩])

/-- Viewer connect (app.py lines 215-272). -/
def viewerConnect (st : ServerState) (c : ConnId) (sid : StreamId) :
    ServerState × List Out :=
  (setConns { st with openConns := fupd st.openConns c (some ("viewer", sid)) }
    sid (regAddViewer ((st.activeConnections sid).getD emptyConns) c),
   viewerHelloOuts st c sid)

/-- The `websocket_endpoint` connection setup: processor-type validation, the
registry entry being ensured, then the role dispatch (an invalid client type
is closed with code 1008 after the entry was ensured, registering nothing). -/
def connectStep (st : ServerState) (c : ConnId) (clientType : String)
    (sid : StreamId) (p0 : String) : ServerState × List Out :=
  if clientType = "broadcaster" then
    broadcasterConnect st c sid (validateProcessor p0)
  else if clientType = "viewer" then
    viewerConnect st c sid
  else
    (setConns st sid ((st.activeConnections sid).getD emptyConns), [])

/-- The `frame` command (app.py lines 286-355): empty-payload check, data-URL
extraction, size limit, then the admission controller: always store the
latest frame; when idle mark `processing` and dispatch one task; otherwise
reply `frame_skipped`.  The `global_processors[...]` lookup between marking
and dispatching can raise `KeyError` (only `"lightning"` is registered),
which kills the handler with `processing` left `true` and no task created. -/
def frameStep (st : ServerState) (c : ConnId) (sid : StreamId)
    (payload : FrameData) : ServerState × List Out :=
  if payload = [] then (st, [⟨c, Msg.errorOut .emptyFrame⟩])
  else
    match stripDataUrl payload with
    | none => (st, [⟨c, Msg.errorOut .invalidDataUrl⟩])
    | some f =>
        if frameTooLarge f then (st, [⟨c, Msg.errorOut .frameTooLarge⟩])
        else
          match st.streams sid with
          | none =>
              -- `streams[stream_id]` KeyError (unreachable for a registered
              -- broadcaster): uncaught, the handler dies.
              (closeConn st c, [])
          | some s =>
              if s.processing then
                (setSession st sid { s with latestFrame := some f },
                 [⟨c, Msg.frameSkipped⟩])
              else
                if s.processorType ∈ globalProcessors then
                  (spawnTask
                    (setSession st sid { s with latestFrame := some f, processing := true })
                    ⟨sid, some f, s.processorType⟩, [])
                else
                  (closeConn
                    (setSession st sid { s with latestFrame := some f, processing := true })
                    c, [])

/-- Shared shape of the parameter-update commands: ack to the sender and a
notification to every current viewer. -/
def ackAndNotify (st : ServerState) (c : ConnId) (sid : StreamId)
    (ack notif : Msg) : List Out :=
  ⟨c, ack⟩ :: (viewersNow st sid).map (fun v => ⟨v, notif⟩)

/-- The `check_stream_status` command (app.py lines 604-633). -/
def statusStep (st : ServerState) (c : ConnId) (sid : StreamId)
    (arg : Option StreamId) : ServerState × List Out :=
  (st, [⟨c, Msg.streamStatus (some (arg.getD sid))
          (streamActiveFlag st (arg.getD sid))
          (streamEndedFlag st (arg.getD sid))⟩])

/-- The message dispatcher (`while True` body of `websocket_endpoint`).
Role guards mirror the `and client_type == ...` conjuncts; any combination
that matches no arm falls off the `if/elif` chain and produces no reply. -/
def messageStep (st : ServerState) (c : ConnId) (ct : String) (sid : StreamId) :
    InMsg → ServerState × List Out
  | .noType => (st, [⟨c, Msg.invalidFormat⟩])
  | .frame payload =>
      if ct = "broadcaster" then frameStep st c sid payload else (st, [])
  | .updatePrompt p =>
      if ct = "broadcaster" then
        if p = "" then (st, [⟨c, Msg.errorOut .emptyPrompt⟩])
        else
          match st.streams sid with
          | none => (st, [])
          | some s =>
              (setSession st sid { s with stylePrompt := p },
               ackAndNotify st c sid (Msg.promptUpdated p) (Msg.styleUpdated p none))
      else (st, [])
  | .updateProcessor p =>
      if ct = "broadcaster" then
        if p ∈ globalProcessors then
          match st.streams sid with
          | none => (st, [])
          | some s =>
              (setSession st sid { s with processorType := p },
               ackAndNotify st c sid (Msg.processorUpdated p) (Msg.processorUpdated p))
        else (st, [⟨c, Msg.errorOut .invalidProcessor⟩])
      else (st, [])
  | .updateNegativePrompt p =>
      if ct = "broadcaster" then
        match st.streams sid with
        | none => (st, [])
        | some s =>
            (setSession st sid { s with negativePrompt := p },
             ackAndNotify st c sid (Msg.negativePromptUpdated p)
               (Msg.negativePromptUpdated p))
      else (st, [])
  | .updateStrength v =>
      if ct = "broadcaster" then
        if minStrength ≤ v.getD defaultStrength ∧ v.getD defaultStrength ≤ maxStrength then
          match st.streams sid with
          | none => (st, [])
          | some s =>
              (setSession st sid { s with strength := v.getD defaultStrength },
               ackAndNotify st c sid (Msg.strengthUpdated (v.getD defaultStrength))
                 (Msg.strengthUpdated (v.getD defaultStrength)))
        else (st, [⟨c, Msg.errorOut .invalidStrength⟩])
      else (st, [])
  | .endStream =>
      if ct = "broadcaster" then
        match st.streams sid with
        | none => (st, [])
        | some s =>
            (setSession st sid { s with streamEnded := true, latestProcessedFrame := none },
             ⟨c, Msg.streamEndedConfirmation⟩ ::
               (viewersNow st sid).map (fun v => ⟨v, Msg.streamEnded (some sid)⟩))
      else (st, [])
  | .ping => (st, [⟨c, Msg.pong⟩])
  | .getStylePrompt =>
      if ct = "viewer" then
        match st.streams sid with
        | none => (st, [])
        | some s => (st, [⟨c, Msg.styleUpdated s.stylePrompt none⟩])
      else (st, [])
  | .getProcessorInfo =>
      match st.streams sid with
      | none => (st, [])
      | some s => (st, [⟨c, Msg.processorInfo s.processorType⟩])
  | .getLatestFrame =>
      if ct = "broadcaster" then
        match st.streams sid with
        | some s =>
            if s.streamEnded then (st, [⟨c, Msg.streamEnded none⟩])
            else if (s.latestProcessedFrame.getD []) ≠ [] then
              (st, [⟨c, Msg.latestFrame s.latestProcessedFrame⟩])
            else (st, [⟨c, Msg.latestFrame none⟩])
        | none => (st, [⟨c, Msg.latestFrame none⟩])
      else (st, [])
  | .subscribeProcessed =>
      if ct = "broadcaster" then
        (setConns st sid
          (regAddBroadcasterViewer ((st.activeConnections sid).getD emptyConns) c),
         [⟨c, Msg.subscriptionConfirmed⟩])
      else (st, [])
  | .unsubscribeProcessed =>
      if ct = "broadcaster" then
        match st.activeConnections sid with
        | some reg =>
            if c ∈ reg.broadcasterViewers then
              (setConns st sid
                { reg with broadcasterViewers := reg.broadcasterViewers.erase c },
               [⟨c, Msg.unsubscriptionConfirmed⟩])
            else (st, [])
        | none => (st, [])
      else (st, [])
  | .checkStreamStatus arg => statusStep st c sid arg
  | .unknown _ => (st, [])

/-- Shared tail of the disconnect handler (app.py lines 669-675): when the
broadcaster and viewer lists are both empty the registry entry and the
session are deleted; otherwise the updated entry is stored.  (The
`broadcaster_viewers` list is not consulted.) -/
def finishCleanup (st : ServerState) (sid : StreamId) (reg1 : Conns)
    (outs : List Out) : ServerState × List Out :=
  if reg1.broadcasters = [] ∧ reg1.viewers = [] then
    (dropStream st sid, outs)
  else
    (setConns st sid reg1, outs)

/-- Broadcaster arm of the disconnect handler (app.py lines 636-664): when
the departing broadcaster was the last one, mark the session ended, clear
the processed-frame cache, and notify every current viewer. -/
def broadcasterDisconnect (st : ServerState) (sid : StreamId) (reg1 : Conns) :
    ServerState × List Out :=
  if reg1.broadcasters = [] then
    match st.streams sid with
    | some s =>
        finishCleanup
          (setSession st sid { s with streamEnded := true, latestProcessedFrame := none })
          sid reg1 (reg1.viewers.map fun v => ⟨v, Msg.streamEnded (some sid)⟩)
    | none =>
        finishCleanup st sid reg1 (reg1.viewers.map fun v => ⟨v, Msg.streamEnded (some sid)⟩)
  else finishCleanup st sid reg1 []

/-- The `except WebSocketDisconnect` handler.  The `.remove` calls raise
`ValueError` when the websocket is not in its role list; that exception
kills the handler before any cleanup (modelled by the bare `closeConn`
arms, unreachable for normally registered connections). -/
def disconnectStep (st : ServerState) (c : ConnId) (ct : String)
    (sid : StreamId) : ServerState × List Out :=
  match st.activeConnections sid with
  | none => (closeConn st c, [])
  | some reg =>
      if ct = "broadcaster" then
        if c ∈ reg.broadcasters then
          broadcasterDisconnect (closeConn st c) sid
            { reg with
                broadcasters := reg.broadcasters.erase c
                broadcasterViewers :=
                  if c ∈ reg.broadcasterViewers then reg.broadcasterViewers.erase c
                  else reg.broadcasterViewers }
        else (closeConn st c, [])
      else
        if c ∈ reg.viewers then
          finishCleanup (closeConn st c) sid { reg with viewers := reg.viewers.erase c } []
        else (closeConn st c, [])

/-- The `frame` messages `broadcast_frame` sends: style prompt and strength
are re-read from the current session (prompt included only when truthy). -/
def frameFieldsOuts (st : ServerState) (sid : StreamId) (frameVal : FrameData)
    (ptype : String) (targets : List ConnId) : List Out :=
  targets.map (fun v =>
    ⟨v, Msg.frameMsg sid frameVal false true ptype
        (match st.streams sid with
         | some s => if s.stylePrompt ≠ "" then some s.stylePrompt else none
         | none => none)
        (match st.streams sid with
         | some s => some s.strength
         | none => none)⟩)

/-- Store of a successful transformation result (app.py lines 702-707):
when the result is truthy and the session still exists, the data-URL-prefixed
result becomes the new `latest_processed_frame` - with no check of
`stream_ended`. -/
def storeProcessed (st : ServerState) (sid : StreamId) (r : FrameData) :
    ServerState :=
  if r ≠ [] then
    match st.streams sid with
    | some s => setSession st sid { s with latestProcessedFrame := some (ensureDataUrl r) }
    | none => st
  else st

/-- The `finally` block of `process_and_broadcast_frame` (app.py lines
763-797): when the session still exists, compare its `latest_frame` with the
frame just processed; equal → clear `processing`; different → start a new
task on the current latest frame (without touching `processing`), unless the
`global_processors` lookup raises `KeyError`, in which case the task dies
with no restart.  `stream_ended` is never consulted. -/
def completionHook (st : ServerState) (t : FlightTask) : ServerState :=
  match st.streams t.streamId with
  | none => st
  | some s =>
      if s.latestFrame = t.frameData then
        setSession st t.streamId { s with processing := false }
      else
        if s.processorType ∈ globalProcessors then
          spawnTask st ⟨t.streamId, s.latestFrame, s.processorType⟩
        else st

/-- The broadcast deliveries of a successful completion (after the frame was
stored): the frame goes to the current viewers unless there are none
(`broadcast_frame` returns early on an empty target list), then to the echo
subscribers when any exist. -/
def successOuts (stB : ServerState) (t : FlightTask) (r : FrameData) : List Out :=
  (if viewersNow stB t.streamId = [] then []
   else frameFieldsOuts stB t.streamId (if r = [] then r else ensureDataUrl r)
          t.processorType (viewersNow stB t.streamId))
  ++ (if bviewersNow stB t.streamId = [] then []
      else frameFieldsOuts stB t.streamId (if r = [] then r else ensureDataUrl r)
             t.processorType (bviewersNow stB t.streamId))

/-- Successful task body resumption: store the processed frame, broadcast
it, then run the `finally` hook. -/
def completeSuccess (stA : ServerState) (t : FlightTask) (r : FrameData) :
    ServerState × List Out :=
  (completionHook (storeProcessed stA t.streamId r) t,
   successOuts (storeProcessed stA t.streamId r) t r)

/-- Failed task body resumption: error notice to the current viewers, then
the `finally` hook. -/
def completeFailure (stA : ServerState) (t : FlightTask) : ServerState × List Out :=
  (completionHook stA t,
   (viewersNow stA t.streamId).map (fun v => ⟨v, Msg.errorOut .processingFailed⟩))

/-- Completion of in-flight task `i`.  `result = some r` models
`process_base64_frame` returning `r`; `none` models it (or anything else in
the `try` body) raising.  Success stores the processed frame and broadcasts
it to the current viewers and echo subscribers; failure sends an error
notice to the current viewers and broadcasts no frame.  Both paths finish
through `completionHook`. -/
def completeStep (st : ServerState) (i : Nat) (result : Option FrameData) :
    ServerState × List Out :=
  match st.tasks[i]? with
  | none => (st, [])
  | some t =>
      match result with
      | some r => completeSuccess { st with tasks := st.tasks.eraseIdx i } t r
      | none => completeFailure { st with tasks := st.tasks.eraseIdx i } t

/-- One atomic transition. -/
def step (st : ServerState) : Event → ServerState × List Out
  | .connect c ct sid p => connectStep st c ct sid p
  | .message c m =>
      match st.openConns c with
      | none => (st, [])
      | some (ct, sid) => messageStep st c ct sid m
  | .disconnect c =>
      match st.openConns c with
      | none => (st, [])
      | some (ct, sid) => disconnectStep st c ct sid
  | .taskComplete i res => completeStep st i res

/-- Run a trace of events. -/
def run (st : ServerState) : List Event → ServerState
  | [] => st
  | e :: es => run (step st e).1 es

/-- States reachable from the empty server. -/
inductive Reachable : ServerState → Prop
  | init : Reachable initState
  | next {st : ServerState} (e : Event) : Reachable st → Reachable (step st e).1

/-- Is a message a `frame` envelope? -/
def isFrameMsg : Msg → Bool
  | .frameMsg _ _ _ _ _ _ _ => true
  | _ => false

/-- Number of `frame` envelopes in a batch of deliveries. -/
def countFrameMsgs (outs : List Out) : Nat :=
  (outs.filter (fun o => isFrameMsg o.msg)).length

/-- Truthiness of the cached `latest_processed_frame` of `streams[r]` (the
guard on replaying the cache to a newly connected viewer). -/
def cachedFrameFlag (st : ServerState) (r : StreamId) : Bool :=
  match st.streams r with
  | some s => !(s.latestProcessedFrame.getD []).isEmpty
  | none => false

/-- C1 failing input: the session of stream `s` is deleted (last connection
drops) and re-created (a second broadcaster connects) while the task for
frame F1 is still in flight; the completion hook then restarts on the new
session's `None` latest frame without setting `processing`, and the next
frame dispatches a second concurrent task. -/
def c1Trace : List Event :=
  [.connect "b1" "broadcaster" "s" "lightning",
   .message "b1" (.frame ("F1".toList)),
   .disconnect "b1",
   .connect "b2" "broadcaster" "s" "lightning",
   .taskComplete 0 (some ("P1".toList)),
   .message "b2" (.frame ("F2".toList))]

/-- C2 counterexample input: `end_stream` arrives while the task for F1 is
in flight; the task then completes successfully. -/
def c2Trace : List Event :=
  [.connect "b" "broadcaster" "s" "lightning",
   .message "b" (.frame ("F1".toList)),
   .message "b" .endStream,
   .taskComplete 0 (some ("P1".toList))]

/-- C2 witness state: a broadcaster with a session and one in-flight task. -/
def c2State : ServerState :=
  run initState
    [.connect "b" "broadcaster" "s" "lightning",
     .message "b" (.frame ("F1".toList))]

/-- C3 state: broadcaster and viewer connected, the task for F1 in flight. -/
def c3State : ServerState :=
  run initState
    [.connect "b" "broadcaster" "s" "lightning",
     .connect "v" "viewer" "s" "lightning",
     .message "b" (.frame ("F1".toList))]

/-- C4 failing input: `end_stream`, then one more frame on the same
broadcaster connection. -/
def c4Trace : List Event :=
  [.connect "b" "broadcaster" "s" "lightning",
   .message "b" .endStream,
   .message "b" (.frame ("F2".toList))]

/-- C5 witness state (active case): the stream is live and a processed frame
is cached. -/
def c5ActiveState : ServerState :=
  run initState
    [.connect "b" "broadcaster" "s" "lightning",
     .message "b" (.frame ("F1".toList)),
     .taskComplete 0 (some ("P1".toList))]

/-- C5 witness state (ended case): same, after `end_stream`; note the cache
was cleared by `end_stream`, so re-add one stale processed frame via a
second completing task to exercise the stale-data clause. -/
def c5EndedState : ServerState :=
  run initState
    [.connect "b" "broadcaster" "s" "lightning",
     .message "b" (.frame ("F1".toList)),
     .message "b" (.frame ("F2".toList)),
     .message "b" .endStream,
     .taskComplete 0 (some ("P1".toList))]

/-- C6 witness state: a full lifecycle of stream `s2` down to zero
connections. -/
def c6GoneState : ServerState :=
  run initState
    [.connect "b" "broadcaster" "s2" "lightning",
     .connect "v" "viewer" "s2" "lightning",
     .connect "w" "viewer" "other" "lightning",
     .disconnect "b",
     .disconnect "v"]

/-- C7 witness state: one broadcaster, default session. -/
def c7State : ServerState :=
  run initState [.connect "b" "broadcaster" "s" "lightning"]

/-- C8 witness state: an open viewer connection. -/
def c8State : ServerState :=
  run initState [.connect "v" "viewer" "s" "lightning"]

/-- C9 witness state: one broadcaster, default session. -/
def c9State : ServerState :=
  run initState [.connect "b" "broadcaster" "s" "lightning"]

/-- C9 witness payload: 1992295 characters, one over the size limit
(1992295 / 2^20 > 1.9 while 1992294 / 2^20 < 1.9). -/
def c9BigPayload : FrameData := List.replicate 1992295 'a'

/-- C10 counterexample state: a session for `s` exists (created with the
valid `lightning` parameter) and was then explicitly ended. -/
def c10State : ServerState :=
  run initState
    [.connect "b1" "broadcaster" "s" "lightning",
     .message "b1" .endStream]

/-- The session stored in `c10State` for stream `s`. -/
def c10Sess : Session :=
  { initSession "lightning" with streamEnded := true, latestProcessedFrame := none }

/-- An out-of-range strength value (the float `1.5`). -/
def c7BadStrength : ℚ := ⟨3, 2, by norm_num, by norm_num⟩

/-- The session stored in `c2State` for stream `s` (F1 admitted, task in
flight). -/
def c2Sess : Session :=
  { initSession "lightning" with latestFrame := some ("F1".toList), processing := true }

/-- The session-registry invariant of claim C6's amended form: every
existing session has a registry entry holding at least one broadcaster or
viewer connection. -/
def ConnInv (st : ServerState) : Prop :=
  ∀ sid s, st.streams sid = some s →
    ∃ reg, st.activeConnections sid = some reg ∧
      (reg.broadcasters ≠ [] ∨ reg.viewers ≠ [])

/-- All ways one `step` can change the session record of a single stream:
unchanged; deleted; created fresh; or exactly one of the field updates the
handlers perform - and a non-`none` `latestProcessedFrame` write happens
only on a `taskComplete` with a successful result. -/
def SessionEvolves (e : Event) (pre post : Option Session) : Prop :=
  post = pre ∨
  post = none ∨
  (∃ p, pre = none ∧ post = some (initSession p)) ∨
  (∃ s, pre = some s ∧
    ((∃ p, post = some { s with processorType := p }) ∨
     (∃ p, post = some { s with stylePrompt := p }) ∨
     (∃ p, post = some { s with negativePrompt := p }) ∨
     (∃ v, minStrength ≤ v ∧ v ≤ maxStrength ∧ post = some { s with strength := v }) ∨
     (∃ f, post = some { s with latestFrame := some f } ∨
           post = some { s with latestFrame := some f, processing := true }) ∨
     post = some { s with streamEnded := true, latestProcessedFrame := none } ∨
     post = some { s with processing := false } ∨
     ((∃ i r, e = .taskComplete i (some r)) ∧
      (∃ r, post = some { s with latestProcessedFrame := some (ensureDataUrl r) } ∨
            post = some { s with latestProcessedFrame := some (ensureDataUrl r),
                                 processing := false }))))

/-! ## State-accessor lemmas -/

@[simp]
theorem setSession_streams (st : ServerState) (sid sid2 : StreamId) (s : Session) :
    (setSession st sid s).streams sid2 = if sid2 = sid then some s else st.streams sid2 := by
  simp [setSession, fupd]

@[simp]
theorem setSession_conns (st : ServerState) (sid : StreamId) (s : Session) :
    (setSession st sid s).activeConnections = st.activeConnections := rfl

@[simp]
theorem setSession_open (st : ServerState) (sid : StreamId) (s : Session) :
    (setSession st sid s).openConns = st.openConns := rfl

@[simp]
theorem setSession_tasks (st : ServerState) (sid : StreamId) (s : Session) :
    (setSession st sid s).tasks = st.tasks := rfl

@[simp]
theorem setConns_conns (st : ServerState) (sid sid2 : StreamId) (reg : Conns) :
    (setConns st sid reg).activeConnections sid2 =
      if sid2 = sid then some reg else st.activeConnections sid2 := by
  simp [setConns, fupd]

@[simp]
theorem setConns_streams (st : ServerState) (sid : StreamId) (reg : Conns) :
    (setConns st sid reg).streams = st.streams := rfl

@[simp]
theorem setConns_open (st : ServerState) (sid : StreamId) (reg : Conns) :
    (setConns st sid reg).openConns = st.openConns := rfl

@[simp]
theorem setConns_tasks (st : ServerState) (sid : StreamId) (reg : Conns) :
    (setConns st sid reg).tasks = st.tasks := rfl

@[simp]
theorem dropStream_streams (st : ServerState) (sid sid2 : StreamId) :
    (dropStream st sid).streams sid2 = if sid2 = sid then none else st.streams sid2 := by
  simp [dropStream, fupd]

@[simp]
theorem dropStream_conns (st : ServerState) (sid sid2 : StreamId) :
    (dropStream st sid).activeConnections sid2 =
      if sid2 = sid then none else st.activeConnections sid2 := by
  simp [dropStream, fupd]

@[simp]
theorem dropStream_open (st : ServerState) (sid : StreamId) :
    (dropStream st sid).openConns = st.openConns := rfl

@[simp]
theorem dropStream_tasks (st : ServerState) (sid : StreamId) :
    (dropStream st sid).tasks = st.tasks := rfl

@[simp]
theorem spawnTask_streams (st : ServerState) (t : FlightTask) :
    (spawnTask st t).streams = st.streams := rfl

@[simp]
theorem spawnTask_conns (st : ServerState) (t : FlightTask) :
    (spawnTask st t).activeConnections = st.activeConnections := rfl

@[simp]
theorem spawnTask_open (st : ServerState) (t : FlightTask) :
    (spawnTask st t).openConns = st.openConns := rfl

@[simp]
theorem spawnTask_tasks (st : ServerState) (t : FlightTask) :
    (spawnTask st t).tasks = st.tasks ++ [t] := rfl

@[simp]
theorem closeConn_streams (st : ServerState) (c : ConnId) :
    (closeConn st c).streams = st.streams := rfl

@[simp]
theorem closeConn_conns (st : ServerState) (c : ConnId) :
    (closeConn st c).activeConnections = st.activeConnections := rfl

@[simp]
theorem closeConn_tasks (st : ServerState) (c : ConnId) :
    (closeConn st c).tasks = st.tasks := rfl

/-! ## Claim C1 -/

/-- C1: the single-flight guarantee fails on the code.  Evaluating the model
on `c1Trace` (session of stream `s` deleted and re-created while the F1 task
was in flight): after the trace, two transformation tasks for stream `s` are
in flight at the same instant - the completion hook restarted on the fresh
session's `None` latest frame without setting `processing`, so the next
frame dispatched a second task. -/
theorem c1_double_inflight_eval :
    (run initState c1Trace).tasks =
      [⟨"s", none, "lightning"⟩, ⟨"s", some ("F2".toList), "lightning"⟩] ∧
    (run initState c1Trace).tasks.length = 2 ∧
    ((run initState (c1Trace.take 5)).streams "s").map Session.processing = some false ∧
    (run initState (c1Trace.take 5)).tasks.length = 1 := by
  decide

/-! ## Claim C2 -/

/-- C2 counterexample: after `end_stream`, a transformation that was in
flight when the command arrived completes successfully and rewrites
`latestProcessedFrame` - it does not stay `null`, because the success path
of `process_and_broadcast_frame` checks only `stream_id in streams`, never
`stream_ended`. -/
theorem c2_counterexample :
    ((run initState c2Trace).streams "s").map
        (fun s => (s.streamEnded, s.latestProcessedFrame)) =
      some (true, some ("data:image/jpeg;base64,P1".toList)) := by
  decide

/-! ## Claim C3 -/

/-- C3 counterexample: when the transformation for F1 fails, the viewer
receives exactly one message - the error notice - and no `frame` envelope at
all: the degraded `is_original=true` fallback re-broadcast claimed by the
spec does not exist in the code (its failure handler only sends the error). -/
theorem c3_counterexample :
    (step c3State (.taskComplete 0 none)).2 =
      [⟨"v", Msg.errorOut .processingFailed⟩] ∧
    countFrameMsgs (step c3State (.taskComplete 0 none)).2 = 0 ∧
    ((step c3State (.taskComplete 0 none)).1.streams "s").map
        Session.latestProcessedFrame = some none ∧
    ((step c3State (.taskComplete 0 none)).1.streams "s").map
        Session.processing = some false := by
  decide

/-! ## Claim C4 -/

/-- C4: the admission controller never consults `ended`.  Evaluating the
model on `c4Trace` (`end_stream`, then one more frame on the same
connection): the frame is stored, `processing` is set back to `true`, and a
new transformation task is dispatched although `streamEnded` is `true`. -/
theorem c4_ended_admission_eval :
    ((run initState c4Trace).streams "s").map
        (fun s => (s.streamEnded, s.processing)) = some (true, true) ∧
    (run initState c4Trace).tasks = [⟨"s", some ("F2".toList), "lightning"⟩] := by
  decide

/-! ## Claim C6 -/

/-- C6 counterexample: a viewer connecting to an unknown stream id is
registered (the registry holds one connection for `s`) while no session is
created - sessions are created only on broadcaster connect - so "a session
exists if and only if at least one connection of any role is registered"
fails in the if direction. -/
theorem c6_counterexample :
    (run initState [.connect "v" "viewer" "s" "lightning"]).activeConnections "s" =
      some ⟨[], ["v"], []⟩ ∧
    (run initState [.connect "v" "viewer" "s" "lightning"]).streams "s" = none := by
  decide

/-! ## Claim C8 -/

/-- C8 counterexample: a message with an unrecognized `type` (here
`"bogus"`) falls off the end of the `if/elif` dispatcher chain: the sender
receives no reply at all, not a generic protocol-error reply. -/
theorem c8_counterexample :
    step c8State (.message "v" (.unknown "bogus")) = (c8State, []) := by
  rfl

/-- C8 amended: a message with no `type` field gets the generic
`{"error": "Invalid message format"}` reply; a message with an unrecognized
`type` is silently ignored; in both cases the server state (sessions and
registry included) is completely unchanged and the connection remains
open. -/
theorem c8_amended (st : ServerState) (c : ConnId) (ct : String)
    (sid : StreamId) (t : String) (hconn : st.openConns c = some (ct, sid)) :
    step st (.message c (.unknown t)) = (st, []) ∧
    step st (.message c .noType) = (st, [⟨c, Msg.invalidFormat⟩]) ∧
    (step st (.message c (.unknown t))).1.openConns c = some (ct, sid) ∧
    (step st (.message c .noType)).1.openConns c = some (ct, sid) := by
  simp [step, hconn, messageStep]

/-- C8 witness: the amended claim at the concrete open viewer connection of
`c8State`. -/
theorem c8_amended_witness :
    step c8State (.message "v" (.unknown "zzz")) = (c8State, []) ∧
    step c8State (.message "v" .noType) = (c8State, [⟨"v", Msg.invalidFormat⟩]) ∧
    (step c8State (.message "v" .noType)).1.openConns "v" = some ("viewer", "s") := by
  have h := c8_amended c8State "v" "viewer" "s" "zzz" (by decide)
  exact ⟨h.1, h.2.1, h.2.2.2⟩

/-! ## Claim C9 -/

/-- C9: a `frame` command whose payload (after data-URL extraction) exceeds
the 1.9 MB limit yields an error reply to the sender and nothing else: the
whole server state - stored latest frame, task list, `processing` flag - is
unchanged, so the frame never reaches the admission controller. -/
theorem c9_oversized_frame (st : ServerState) (c : ConnId) (sid : StreamId)
    (payload f : FrameData)
    (hconn : st.openConns c = some ("broadcaster", sid))
    (hstrip : stripDataUrl payload = some f)
    (hbig : frameTooLarge f = true) :
    step st (.message c (.frame payload)) =
      (st, [⟨c, Msg.errorOut .frameTooLarge⟩]) := by
  have hne : payload ≠ [] := by
    intro h
    subst h
    have : f = [] := by
      simpa [stripDataUrl, dataMark, startsWithList] using hstrip
    rw [this] at hbig
    exact absurd hbig (by decide)
  simp [step, hconn, messageStep, frameStep, hne, hstrip, hbig]

/-- C9 witness: the oversize rejection at a concrete 1992295-character
payload on the broadcaster connection of `c9State`. -/
theorem c9_oversized_frame_witness :
    step c9State (.message "b" (.frame c9BigPayload)) =
      (c9State, [⟨"b", Msg.errorOut .frameTooLarge⟩]) := by
  have hlen : c9BigPayload.length = 1992295 := List.length_replicate _ _
  have hpre : startsWithList dataMark c9BigPayload = false := rfl
  have hstrip : stripDataUrl c9BigPayload = some c9BigPayload := by
    simp [stripDataUrl, hpre]
  have hbig : frameTooLarge c9BigPayload = true := by
    rw [frameTooLarge, hlen]
    norm_num
  exact c9_oversized_frame c9State "b" "s" c9BigPayload c9BigPayload (by decide) hstrip hbig

/-! ## Claim C10 -/

/-- C10 counterexample: a broadcaster reconnecting to the existing (ended)
session of `s` with the query parameter `processorType=foo` does not write
`"foo"` into the session: the parameter is first validated against
`global_processors` and falls back to `"standard"`, so the field is
overwritten with `"standard"`, not with the connection's query parameter. -/
theorem c10_counterexample :
    ((run (run initState
        [.connect "b1" "broadcaster" "s" "lightning", .message "b1" .endStream])
        [.connect "b2" "broadcaster" "s" "foo"]).streams "s").map
        Session.processorType = some "standard" ∧
    ("standard" : String) ≠ "foo" := by
  decide

/-- C10 amended: a broadcaster connecting to a stream id whose session
already exists overwrites exactly the session's `processorType` field, with
the validated processor type derived from the query parameter (the parameter
itself when it names a registered processor, `"standard"` otherwise); every
other field - prompts, strength, cached frames, `processing`, `ended` - is
unchanged, and sessions of other stream ids are untouched, so an ended
session stays ended. -/
theorem c10_amended (st : ServerState) (c : ConnId) (sid : StreamId)
    (p : String) (s : Session) (hs : st.streams sid = some s) :
    (step st (.connect c "broadcaster" sid p)).1.streams sid =
      some { s with processorType := validateProcessor p } ∧
    ∀ sid2, sid2 ≠ sid →
      (step st (.connect c "broadcaster" sid p)).1.streams sid2 = st.streams sid2 := by
  constructor
  · simp [step, connectStep, broadcasterConnect, hs]
  · intro sid2 hne
    simp [step, connectStep, broadcasterConnect, hs, hne]

/-! ## Completion-hook case lemmas -/

/-- Completion hook when the session no longer exists: no effect. -/
theorem completionHook_gone (st : ServerState) (t : FlightTask)
    (h : st.streams t.streamId = none) : completionHook st t = st := by
  unfold completionHook
  simp only [h]

/-- Completion hook when the stored latest frame equals the processed one:
`processing` is cleared. -/
theorem completionHook_idle (st : ServerState) (t : FlightTask) (s : Session)
    (h : st.streams t.streamId = some s) (he : s.latestFrame = t.frameData) :
    completionHook st t = setSession st t.streamId { s with processing := false } := by
  unfold completionHook
  simp only [h]
  rw [if_pos he]

/-- Completion hook when a newer frame is stored and the processor is
registered: a new task is started, `processing` untouched. -/
theorem completionHook_restart (st : ServerState) (t : FlightTask) (s : Session)
    (h : st.streams t.streamId = some s) (he : ¬s.latestFrame = t.frameData)
    (hp : s.processorType ∈ globalProcessors) :
    completionHook st t = spawnTask st ⟨t.streamId, s.latestFrame, s.processorType⟩ := by
  unfold completionHook
  simp only [h]
  rw [if_neg he, if_pos hp]

/-- Completion hook when a newer frame is stored but the processor lookup
raises `KeyError`: no restart, no effect. -/
theorem completionHook_stuck (st : ServerState) (t : FlightTask) (s : Session)
    (h : st.streams t.streamId = some s) (he : ¬s.latestFrame = t.frameData)
    (hp : s.processorType ∉ globalProcessors) :
    completionHook st t = st := by
  unfold completionHook
  simp only [h]
  rw [if_neg he, if_neg hp]

/-! ## Session-evolution lemmas -/

theorem SessionEvolves.same (e : Event) (pre post : Option Session)
    (h : post = pre) : SessionEvolves e pre post := Or.inl h

theorem SessionEvolves.deleted (e : Event) (pre post : Option Session)
    (h : post = none) : SessionEvolves e pre post := Or.inr (Or.inl h)

theorem SessionEvolves.created (e : Event) (pre post : Option Session)
    (p : String) (h1 : pre = none) (h2 : post = some (initSession p)) :
    SessionEvolves e pre post := Or.inr (Or.inr (Or.inl ⟨p, h1, h2⟩))

theorem SessionEvolves.procType (e : Event) (pre post : Option Session)
    (s : Session) (p : String) (h1 : pre = some s)
    (h2 : post = some { s with processorType := p }) : SessionEvolves e pre post :=
  Or.inr (Or.inr (Or.inr ⟨s, h1, Or.inl ⟨p, h2⟩⟩))

theorem SessionEvolves.style (e : Event) (pre post : Option Session)
    (s : Session) (p : String) (h1 : pre = some s)
    (h2 : post = some { s with stylePrompt := p }) : SessionEvolves e pre post :=
  Or.inr (Or.inr (Or.inr ⟨s, h1, Or.inr (Or.inl ⟨p, h2⟩)⟩))

theorem SessionEvolves.negStyle (e : Event) (pre post : Option Session)
    (s : Session) (p : String) (h1 : pre = some s)
    (h2 : post = some { s with negativePrompt := p }) : SessionEvolves e pre post :=
  Or.inr (Or.inr (Or.inr ⟨s, h1, Or.inr (Or.inr (Or.inl ⟨p, h2⟩))⟩))

theorem SessionEvolves.strengthSet (e : Event) (pre post : Option Session)
    (s : Session) (v : ℚ) (h1 : pre = some s) (hlo : minStrength ≤ v)
    (hhi : v ≤ maxStrength) (h2 : post = some { s with strength := v }) :
    SessionEvolves e pre post :=
  Or.inr (Or.inr (Or.inr ⟨s, h1, Or.inr (Or.inr (Or.inr (Or.inl ⟨v, hlo, hhi, h2⟩)))⟩))

theorem SessionEvolves.latest (e : Event) (pre post : Option Session)
    (s : Session) (f : FrameData) (h1 : pre = some s)
    (h2 : post = some { s with latestFrame := some f } ∨
          post = some { s with latestFrame := some f, processing := true }) :
    SessionEvolves e pre post :=
  Or.inr (Or.inr (Or.inr ⟨s, h1,
    Or.inr (Or.inr (Or.inr (Or.inr (Or.inl ⟨f, h2⟩))))⟩))

theorem SessionEvolves.ended (e : Event) (pre post : Option Session)
    (s : Session) (h1 : pre = some s)
    (h2 : post = some { s with streamEnded := true, latestProcessedFrame := none }) :
    SessionEvolves e pre post :=
  Or.inr (Or.inr (Or.inr ⟨s, h1,
    Or.inr (Or.inr (Or.inr (Or.inr (Or.inr (Or.inl h2)))))⟩))

theorem SessionEvolves.procCleared (e : Event) (pre post : Option Session)
    (s : Session) (h1 : pre = some s)
    (h2 : post = some { s with processing := false }) : SessionEvolves e pre post :=
  Or.inr (Or.inr (Or.inr ⟨s, h1,
    Or.inr (Or.inr (Or.inr (Or.inr (Or.inr (Or.inr (Or.inl h2))))))⟩))

theorem SessionEvolves.lpfWrite (i : Nat) (r : FrameData) (pre post : Option Session)
    (s : Session) (r2 : FrameData) (h1 : pre = some s)
    (h2 : post = some { s with latestProcessedFrame := some (ensureDataUrl r2) } ∨
          post = some { s with latestProcessedFrame := some (ensureDataUrl r2),
                               processing := false }) :
    SessionEvolves (.taskComplete i (some r)) pre post :=
  Or.inr (Or.inr (Or.inr ⟨s, h1,
    Or.inr (Or.inr (Or.inr (Or.inr (Or.inr (Or.inr (Or.inr
      ⟨⟨i, r, rfl⟩, r2, h2⟩))))))⟩))

/-- Session evolution across `frameStep`. -/
theorem frameStep_evolves (e : Event) (st : ServerState) (c : ConnId)
    (sid2 : StreamId) (payload : FrameData) (sid : StreamId) :
    SessionEvolves e (st.streams sid) ((frameStep st c sid2 payload).1.streams sid) := by
  unfold frameStep
  split
  · exact .same _ _ _ rfl
  · split
    · exact .same _ _ _ rfl
    · split
      · exact .same _ _ _ rfl
      · split
        · exact .same _ _ _ rfl
        · rename_i f hstrip hbig hscrut s hs
          by_cases hsid : sid = sid2
          · subst hsid
            split
            · exact .latest e _ _ s f hs (Or.inl (by simp))
            · split
              · exact .latest e _ _ s f hs (Or.inr (by simp))
              · exact .latest e _ _ s f hs (Or.inr (by simp))
          · split
            · exact .same _ _ _ (by simp [hsid])
            · split
              · exact .same _ _ _ (by simp [hsid])
              · exact .same _ _ _ (by simp [hsid])

/-- Generic shape of the `if session exists, mutate it` dispatcher arms. -/
theorem evolves_of_match (e : Event) (st : ServerState) (sid2 sid : StreamId)
    (F : Session → Session) (outs : Session → List Out)
    (h : ∀ s, st.streams sid2 = some s →
      SessionEvolves e (st.streams sid) ((setSession st sid2 (F s)).streams sid)) :
    SessionEvolves e (st.streams sid)
      ((match st.streams sid2 with
        | none => (st, ([] : List Out))
        | some s => (setSession st sid2 (F s), outs s)).1.streams sid) := by
  cases hs : st.streams sid2 with
  | none => exact .same _ _ _ rfl
  | some s => exact h s hs

/-- Session evolution across `messageStep`. -/
theorem messageStep_evolves (e : Event) (st : ServerState) (c : ConnId)
    (ct : String) (sid2 : StreamId) (m : InMsg) (sid : StreamId) :
    SessionEvolves e (st.streams sid) ((messageStep st c ct sid2 m).1.streams sid) := by
  cases m with
  | noType => exact .same _ _ _ rfl
  | frame payload =>
      simp only [messageStep]
      split
      · exact frameStep_evolves e st c sid2 payload sid
      · exact .same _ _ _ rfl
  | updatePrompt p =>
      simp only [messageStep]
      split
      · split
        · exact .same _ _ _ rfl
        · refine evolves_of_match e st sid2 sid _ _ ?_
          intro s hs
          by_cases hsid : sid = sid2
          · subst hsid; exact .style e _ _ s p hs (by simp)
          · exact .same _ _ _ (by simp [hsid])
      · exact .same _ _ _ rfl
  | updateProcessor p =>
      simp only [messageStep]
      split
      · split
        · refine evolves_of_match e st sid2 sid _ _ ?_
          intro s hs
          by_cases hsid : sid = sid2
          · subst hsid; exact .procType e _ _ s p hs (by simp)
          · exact .same _ _ _ (by simp [hsid])
        · exact .same _ _ _ rfl
      · exact .same _ _ _ rfl
  | updateNegativePrompt p =>
      simp only [messageStep]
      split
      · refine evolves_of_match e st sid2 sid _ _ ?_
        intro s hs
        by_cases hsid : sid = sid2
        · subst hsid; exact .negStyle e _ _ s p hs (by simp)
        · exact .same _ _ _ (by simp [hsid])
      · exact .same _ _ _ rfl
  | updateStrength v =>
      simp only [messageStep]
      split
      · split
        · rename_i hrange
          refine evolves_of_match e st sid2 sid _ _ ?_
          intro s hs
          by_cases hsid : sid = sid2
          · subst hsid
            exact .strengthSet e _ _ s (v.getD defaultStrength) hs hrange.1 hrange.2 (by simp)
          · exact .same _ _ _ (by simp [hsid])
        · exact .same _ _ _ rfl
      · exact .same _ _ _ rfl
  | endStream =>
      simp only [messageStep]
      split
      · refine evolves_of_match e st sid2 sid _ _ ?_
        intro s hs
        by_cases hsid : sid = sid2
        · subst hsid; exact .ended e _ _ s hs (by simp)
        · exact .same _ _ _ (by simp [hsid])
      · exact .same _ _ _ rfl
  | ping => exact .same _ _ _ rfl
  | getStylePrompt =>
      simp only [messageStep]
      split
      · split
        · exact .same _ _ _ rfl
        · exact .same _ _ _ rfl
      · exact .same _ _ _ rfl
  | getProcessorInfo =>
      simp only [messageStep]
      split
      · exact .same _ _ _ rfl
      · exact .same _ _ _ rfl
  | getLatestFrame =>
      simp only [messageStep]
      split
      · split
        · split
          · exact .same _ _ _ rfl
          · split
            · exact .same _ _ _ rfl
            · exact .same _ _ _ rfl
        · exact .same _ _ _ rfl
      · exact .same _ _ _ rfl
  | subscribeProcessed =>
      simp only [messageStep]
      split
      · exact .same _ _ _ rfl
      · exact .same _ _ _ rfl
  | unsubscribeProcessed =>
      simp only [messageStep]
      split
      · split
        · split
          · exact .same _ _ _ rfl
          · exact .same _ _ _ rfl
        · exact .same _ _ _ rfl
      · exact .same _ _ _ rfl
  | checkStreamStatus arg => exact .same _ _ _ rfl
  | unknown t => exact .same _ _ _ rfl

/-- Session evolution across `connectStep`. -/
theorem connectStep_evolves (e : Event) (st : ServerState) (c : ConnId)
    (ct : String) (sid2 : StreamId) (p : String) (sid : StreamId) :
    SessionEvolves e (st.streams sid) ((connectStep st c ct sid2 p).1.streams sid) := by
  unfold connectStep
  split
  · unfold broadcasterConnect
    by_cases hsid : sid = sid2
    · subst hsid
      cases hs : st.streams sid with
      | none => exact .created e _ _ (validateProcessor p) rfl (by simp)
      | some s => exact .procType e _ _ s (validateProcessor p) rfl (by simp)
    · exact .same _ _ _ (by simp [hsid])
  · split
    · exact .same _ _ _ rfl
    · exact .same _ _ _ rfl

/-- Streams shape of `finishCleanup`: unchanged, or the stream deleted. -/
theorem finishCleanup_streams (st : ServerState) (sid2 : StreamId) (reg1 : Conns)
    (outs : List Out) (sid : StreamId) :
    (finishCleanup st sid2 reg1 outs).1.streams sid = st.streams sid ∨
    (sid = sid2 ∧ (finishCleanup st sid2 reg1 outs).1.streams sid = none) := by
  unfold finishCleanup
  split
  · by_cases hsid : sid = sid2
    · subst hsid; exact Or.inr ⟨rfl, by simp⟩
    · exact Or.inl (by simp [hsid])
  · exact Or.inl rfl

/-- Session evolution across `broadcasterDisconnect`. -/
theorem broadcasterDisconnect_evolves (e : Event) (st : ServerState)
    (sid2 : StreamId) (reg1 : Conns) (sid : StreamId) :
    SessionEvolves e (st.streams sid) ((broadcasterDisconnect st sid2 reg1).1.streams sid) := by
  unfold broadcasterDisconnect
  split
  · cases hs : st.streams sid2 with
    | some s =>
        rcases finishCleanup_streams
            (setSession st sid2 { s with streamEnded := true, latestProcessedFrame := none })
            sid2 reg1 (reg1.viewers.map fun v => ⟨v, Msg.streamEnded (some sid2)⟩)
            sid with h | ⟨rfl, h⟩
        · by_cases hsid : sid = sid2
          · subst hsid; exact .ended e _ _ s hs (by simp [h])
          · exact .same _ _ _ (by simp [h, hsid])
        · exact .deleted _ _ _ h
    | none =>
        rcases finishCleanup_streams st sid2 reg1
            (reg1.viewers.map fun v => ⟨v, Msg.streamEnded (some sid2)⟩)
            sid with h | ⟨rfl, h⟩
        · exact .same _ _ _ h
        · exact .deleted _ _ _ h
  · rcases finishCleanup_streams st sid2 reg1 [] sid with h | ⟨rfl, h⟩
    · exact .same _ _ _ h
    · exact .deleted _ _ _ h

/-- Session evolution across `disconnectStep`. -/
theorem disconnectStep_evolves (e : Event) (st : ServerState) (c : ConnId)
    (ct : String) (sid2 : StreamId) (sid : StreamId) :
    SessionEvolves e (st.streams sid) ((disconnectStep st c ct sid2).1.streams sid) := by
  unfold disconnectStep
  split
  · exact .same _ _ _ rfl
  · split
    · split
      · exact broadcasterDisconnect_evolves e _ _ _ sid
      · exact .same _ _ _ rfl
    · split
      · rcases finishCleanup_streams (closeConn st c) sid2 _ [] sid with h | ⟨rfl, h⟩
        · exact .same _ _ _ h
        · exact .deleted _ _ _ h
      · exact .same _ _ _ rfl

/-- Streams shape of `storeProcessed`: unchanged, or the
`latestProcessedFrame` write on an existing session. -/
theorem storeProcessed_shape (st : ServerState) (sid2 : StreamId)
    (r : FrameData) (sid : StreamId) :
    (storeProcessed st sid2 r).streams sid = st.streams sid ∨
    ∃ s, st.streams sid = some s ∧
      (storeProcessed st sid2 r).streams sid =
        some { s with latestProcessedFrame := some (ensureDataUrl r) } := by
  unfold storeProcessed
  split
  · split
    · rename_i s hs
      by_cases hsid : sid = sid2
      · subst hsid; exact Or.inr ⟨s, hs, by simp⟩
      · exact Or.inl (by simp [hsid])
    · exact Or.inl rfl
  · exact Or.inl rfl

/-- Streams shape of `completionHook`: unchanged, or `processing` cleared on
an existing session. -/
theorem completionHook_shape (st : ServerState) (t : FlightTask) (sid : StreamId) :
    (completionHook st t).streams sid = st.streams sid ∨
    ∃ s, st.streams sid = some s ∧
      (completionHook st t).streams sid = some { s with processing := false } := by
  unfold completionHook
  split
  · exact Or.inl rfl
  · rename_i s hs
    split
    · by_cases hsid : sid = t.streamId
      · subst hsid; exact Or.inr ⟨s, hs, by simp⟩
      · exact Or.inl (by simp [hsid])
    · split
      · exact Or.inl rfl
      · exact Or.inl rfl

/-- Session evolution across a failed completion. -/
theorem completeFailure_evolves (e : Event) (stA : ServerState) (t : FlightTask)
    (sid : StreamId) :
    SessionEvolves e (stA.streams sid) ((completeFailure stA t).1.streams sid) := by
  rcases completionHook_shape stA t sid with h | ⟨s, hs, h⟩
  · exact .same _ _ _ h
  · exact .procCleared e _ _ s hs h

/-- Session evolution across a successful completion. -/
theorem completeSuccess_evolves (i : Nat) (r : FrameData) (stA : ServerState)
    (t : FlightTask) (sid : StreamId) :
    SessionEvolves (.taskComplete i (some r)) (stA.streams sid)
      ((completeSuccess stA t r).1.streams sid) := by
  rcases storeProcessed_shape stA t.streamId r sid with h1 | ⟨s, hs, h1⟩
  · rcases completionHook_shape (storeProcessed stA t.streamId r) t sid with h2 | ⟨s2, hs2, h2⟩
    · exact .same _ _ _ (h2.trans h1)
    · rw [h1] at hs2
      exact .procCleared _ _ _ s2 hs2 h2
  · rcases completionHook_shape (storeProcessed stA t.streamId r) t sid with h2 | ⟨s2, hs2, h2⟩
    · exact .lpfWrite i r _ _ s r hs (Or.inl (h2.trans h1))
    · rw [h1] at hs2
      injection hs2 with hs2e
      refine .lpfWrite i r _ _ s r hs (Or.inr ?_)
      show (completionHook (storeProcessed stA t.streamId r) t).streams sid = _
      rw [h2, ← hs2e]

/-- Session evolution across `completeStep`. -/
theorem completeStep_evolves (st : ServerState) (i : Nat)
    (res : Option FrameData) (sid : StreamId) :
    SessionEvolves (.taskComplete i res) (st.streams sid)
      ((completeStep st i res).1.streams sid) := by
  unfold completeStep
  split
  · exact .same _ _ _ rfl
  · cases res with
    | some r => exact completeSuccess_evolves i r _ _ sid
    | none => exact completeFailure_evolves _ _ _ sid

/-- Master lemma: every step's effect on every single session record is one
of the `SessionEvolves` shapes. -/
theorem step_sessionEvolves (st : ServerState) (e : Event) (sid : StreamId) :
    SessionEvolves e (st.streams sid) ((step st e).1.streams sid) := by
  cases e with
  | connect c ct sid2 p => exact connectStep_evolves _ st c ct sid2 p sid
  | message c m =>
      simp only [step]
      cases ho : st.openConns c with
      | none => exact .same _ _ _ rfl
      | some pr =>
          obtain ⟨ct, sid2⟩ := pr
          exact messageStep_evolves _ st c ct sid2 m sid
  | disconnect c =>
      simp only [step]
      cases ho : st.openConns c with
      | none => exact .same _ _ _ rfl
      | some pr =>
          obtain ⟨ct, sid2⟩ := pr
          exact disconnectStep_evolves _ st c ct sid2 sid
  | taskComplete i res => exact completeStep_evolves st i res sid

/-! ## Registry-invariant machinery -/

/-- Running a trace preserves reachability. -/
theorem Reachable.runTrace (st : ServerState) (h : Reachable st) (tr : List Event) :
    Reachable (run st tr) := by
  induction tr generalizing st with
  | nil => exact h
  | cons e es ih => exact ih _ (h.next e)

/-- The `storeProcessed` write leaves the registry untouched. -/
theorem storeProcessed_conns (st : ServerState) (sid : StreamId) (r : FrameData) :
    (storeProcessed st sid r).activeConnections = st.activeConnections := by
  unfold storeProcessed
  split
  · split <;> rfl
  · rfl

/-- The `completionHook` leaves the registry untouched. -/
theorem completionHook_conns (st : ServerState) (t : FlightTask) :
    (completionHook st t).activeConnections = st.activeConnections := by
  unfold completionHook
  split
  · rfl
  · split
    · rfl
    · split <;> rfl

/-- The whole `completeStep` leaves the registry untouched. -/
theorem completeStep_conns (st : ServerState) (i : Nat) (res : Option FrameData) :
    (completeStep st i res).1.activeConnections = st.activeConnections := by
  unfold completeStep
  split
  · rfl
  · cases res with
    | some r => exact (completionHook_conns _ _).trans (storeProcessed_conns _ _ _)
    | none => exact completionHook_conns _ _

/-- The `completeStep` transition never creates a session. -/
theorem completeStep_streams_mono (st : ServerState) (i : Nat)
    (res : Option FrameData) (sid : StreamId) (s : Session)
    (hs : (completeStep st i res).1.streams sid = some s) :
    ∃ s0, st.streams sid = some s0 := by
  unfold completeStep at hs
  split at hs
  · exact ⟨s, hs⟩
  · rename_i t ht
    cases res with
    | some r =>
        have he : (completeSuccess { st with tasks := st.tasks.eraseIdx i } t r).1.streams sid
            = (completionHook
                (storeProcessed { st with tasks := st.tasks.eraseIdx i } t.streamId r)
                t).streams sid := rfl
        rw [he] at hs
        rcases completionHook_shape
            (storeProcessed { st with tasks := st.tasks.eraseIdx i } t.streamId r) t sid with
          h | ⟨s2, hs2, h⟩
        · rw [h] at hs
          rcases storeProcessed_shape { st with tasks := st.tasks.eraseIdx i }
              t.streamId r sid with h1 | ⟨s0, hs0, h1⟩
          · rw [h1] at hs; exact ⟨s, hs⟩
          · exact ⟨s0, hs0⟩
        · rcases storeProcessed_shape { st with tasks := st.tasks.eraseIdx i }
              t.streamId r sid with h1 | ⟨s0, hs0, h1⟩
          · rw [h1] at hs2; exact ⟨s2, hs2⟩
          · exact ⟨s0, hs0⟩
    | none =>
        have he : (completeFailure { st with tasks := st.tasks.eraseIdx i } t).1.streams sid
            = (completionHook { st with tasks := st.tasks.eraseIdx i } t).streams sid := rfl
        rw [he] at hs
        rcases completionHook_shape { st with tasks := st.tasks.eraseIdx i } t sid with
          h | ⟨s2, hs2, h⟩
        · rw [h] at hs; exact ⟨s, hs⟩
        · exact ⟨s2, hs2⟩

/-- The invariant `ConnInv` survives a session update at an id whose session exists. -/
theorem connInv_setSession_existing (st : ServerState) (sid2 : StreamId)
    (s2 s' : Session) (h : ConnInv st) (hs2 : st.streams sid2 = some s2) :
    ConnInv (setSession st sid2 s') := by
  intro sid s hs
  by_cases hsid : sid = sid2
  · subst hsid
    obtain ⟨reg, hr, hp⟩ := h _ s2 hs2
    exact ⟨reg, hr, hp⟩
  · rw [setSession_streams, if_neg hsid] at hs
    obtain ⟨reg, hr, hp⟩ := h sid s hs
    exact ⟨reg, hr, hp⟩

/-- The invariant `ConnInv` across the worker-side `if session exists, mutate it` arms. -/
theorem connInv_of_match (st : ServerState) (sid2 : StreamId)
    (F : Session → Session) (outs : Session → List Out) (h : ConnInv st) :
    ConnInv ((match st.streams sid2 with
              | none => (st, ([] : List Out))
              | some s => (setSession st sid2 (F s), outs s)) :
        ServerState × List Out).1 := by
  cases hs2 : st.streams sid2 with
  | none => exact h
  | some s2 => exact connInv_setSession_existing st sid2 s2 _ h hs2

/-- The invariant `ConnInv` across `finishCleanup`: either the session is deleted with its
entry, or the stored entry keeps a broadcaster or viewer by the cleanup
guard. -/
theorem finishCleanup_connInv (st : ServerState) (sid2 : StreamId)
    (reg1 : Conns) (outs : List Out) (h : ConnInv st) :
    ConnInv (finishCleanup st sid2 reg1 outs).1 := by
  unfold finishCleanup
  split
  · intro sid s hs
    by_cases hsid : sid = sid2
    · subst hsid
      simp at hs
    · obtain ⟨reg, hr, hp⟩ := h sid s (by simpa [hsid] using hs)
      exact ⟨reg, by simp [hsid, hr], hp⟩
  · rename_i hcond
    intro sid s hs
    by_cases hsid : sid = sid2
    · subst hsid
      refine ⟨reg1, by simp, ?_⟩
      rcases not_and_or.mp hcond with hb | hv
      · exact Or.inl hb
      · exact Or.inr hv
    · obtain ⟨reg, hr, hp⟩ := h sid s hs
      exact ⟨reg, by simp [hsid, hr], hp⟩

/-- The invariant `ConnInv` across `broadcasterDisconnect`. -/
theorem broadcasterDisconnect_connInv (st : ServerState) (sid2 : StreamId)
    (reg1 : Conns) (h : ConnInv st) :
    ConnInv (broadcasterDisconnect st sid2 reg1).1 := by
  unfold broadcasterDisconnect
  split
  · cases hs2 : st.streams sid2 with
    | some s =>
        exact finishCleanup_connInv _ _ _ _
          (connInv_setSession_existing st sid2 s _ h hs2)
    | none => exact finishCleanup_connInv _ _ _ _ h
  · exact finishCleanup_connInv _ _ _ _ h

/-- The invariant `ConnInv` across `frameStep`. -/
theorem frameStep_connInv (st : ServerState) (c : ConnId) (sid2 : StreamId)
    (payload : FrameData) (h : ConnInv st) :
    ConnInv (frameStep st c sid2 payload).1 := by
  unfold frameStep
  split
  · exact h
  · split
    · exact h
    · split
      · exact h
      · split
        · exact h
        · rename_i f hstrip hbig hscrut s hs
          split
          · exact connInv_setSession_existing st sid2 s _ h hs
          · split
            · exact connInv_setSession_existing st sid2 s _ h hs
            · exact connInv_setSession_existing st sid2 s _ h hs

/-- The invariant `ConnInv` across `messageStep`. -/
theorem messageStep_connInv (st : ServerState) (c : ConnId) (ct : String)
    (sid2 : StreamId) (m : InMsg) (h : ConnInv st) :
    ConnInv (messageStep st c ct sid2 m).1 := by
  cases m with
  | noType => exact h
  | frame payload =>
      simp only [messageStep]
      split
      · exact frameStep_connInv st c sid2 payload h
      · exact h
  | updatePrompt p =>
      simp only [messageStep]
      split
      · split
        · exact h
        · exact connInv_of_match st sid2 _ _ h
      · exact h
  | updateProcessor p =>
      simp only [messageStep]
      split
      · split
        · exact connInv_of_match st sid2 _ _ h
        · exact h
      · exact h
  | updateNegativePrompt p =>
      simp only [messageStep]
      split
      · exact connInv_of_match st sid2 _ _ h
      · exact h
  | updateStrength v =>
      simp only [messageStep]
      split
      · split
        · exact connInv_of_match st sid2 _ _ h
        · exact h
      · exact h
  | endStream =>
      simp only [messageStep]
      split
      · exact connInv_of_match st sid2 _ _ h
      · exact h
  | ping => exact h
  | getStylePrompt =>
      simp only [messageStep]
      split
      · split
        · exact h
        · exact h
      · exact h
  | getProcessorInfo =>
      simp only [messageStep]
      split
      · exact h
      · exact h
  | getLatestFrame =>
      simp only [messageStep]
      split
      · split
        · split
          · exact h
          · split
            · exact h
            · exact h
        · exact h
      · exact h
  | subscribeProcessed =>
      simp only [messageStep]
      split
      · intro sid s hs
        obtain ⟨reg, hr, hp⟩ := h sid s hs
        by_cases hsid : sid = sid2
        · subst hsid
          refine ⟨regAddBroadcasterViewer ((st.activeConnections sid).getD emptyConns) c,
            by simp, ?_⟩
          rw [hr]
          exact hp
        · exact ⟨reg, by simp [hsid, hr], hp⟩
      · exact h
  | unsubscribeProcessed =>
      simp only [messageStep]
      split
      · split
        · rename_i reg2 hreg2
          split
          · intro sid s hs
            obtain ⟨reg, hr, hp⟩ := h sid s hs
            by_cases hsid : sid = sid2
            · subst hsid
              refine ⟨{ reg2 with broadcasterViewers := reg2.broadcasterViewers.erase c },
                by simp, ?_⟩
              rw [hreg2] at hr
              injection hr with hr
              subst hr
              exact hp
            · exact ⟨reg, by simp [hsid, hr], hp⟩
          · exact h
        · exact h
      · exact h
  | checkStreamStatus arg => exact h
  | unknown t => exact h

/-- The invariant `ConnInv` across `connectStep`. -/
theorem connectStep_connInv (st : ServerState) (c : ConnId) (ct : String)
    (sid2 : StreamId) (p : String) (h : ConnInv st) :
    ConnInv (connectStep st c ct sid2 p).1 := by
  unfold connectStep
  split
  · unfold broadcasterConnect
    intro sid s hs
    by_cases hsid : sid = sid2
    · subst hsid
      refine ⟨regAddBroadcaster ((st.activeConnections sid).getD emptyConns) c,
        by simp, Or.inl ?_⟩
      simp [regAddBroadcaster]
    · rw [setSession_streams, if_neg hsid] at hs
      obtain ⟨reg, hr, hp⟩ := h sid s hs
      exact ⟨reg, by simp [hsid, hr], hp⟩
  · split
    · unfold viewerConnect
      intro sid s hs
      by_cases hsid : sid = sid2
      · subst hsid
        refine ⟨regAddViewer ((st.activeConnections sid).getD emptyConns) c,
          by simp, Or.inr ?_⟩
        simp [regAddViewer]
      · obtain ⟨reg, hr, hp⟩ := h sid s hs
        exact ⟨reg, by simp [hsid, hr], hp⟩
    · intro sid s hs
      obtain ⟨reg, hr, hp⟩ := h sid s hs
      by_cases hsid : sid = sid2
      · subst hsid
        refine ⟨reg, ?_, hp⟩
        simp [hr]
      · exact ⟨reg, by simp [hsid, hr], hp⟩

/-- The invariant `ConnInv` is preserved by every step. -/
theorem connInv_step (st : ServerState) (e : Event) (h : ConnInv st) :
    ConnInv (step st e).1 := by
  cases e with
  | connect c ct sid2 p => exact connectStep_connInv st c ct sid2 p h
  | message c m =>
      simp only [step]
      cases ho : st.openConns c with
      | none => exact h
      | some pr =>
          obtain ⟨ct, sid2⟩ := pr
          exact messageStep_connInv st c ct sid2 m h
  | disconnect c =>
      simp only [step]
      cases ho : st.openConns c with
      | none => exact h
      | some pr =>
          obtain ⟨ct, sid2⟩ := pr
          show ConnInv (disconnectStep st c ct sid2).1
          unfold disconnectStep
          split
          · exact h
          · split
            · split
              · exact broadcasterDisconnect_connInv _ _ _ h
              · exact h
            · split
              · exact finishCleanup_connInv _ _ _ _ h
              · exact h
  | taskComplete i res =>
      intro sid s hs
      obtain ⟨s0, hs0⟩ := completeStep_streams_mono st i res sid s hs
      obtain ⟨reg, hr, hp⟩ := h sid s0 hs0
      refine ⟨reg, ?_, hp⟩
      show (completeStep st i res).1.activeConnections sid = some reg
      rw [completeStep_conns]
      exact hr

/-- Every reachable state satisfies `ConnInv`. -/
theorem connInv_reachable (st : ServerState) (h : Reachable st) : ConnInv st := by
  induction h with
  | init => intro sid s hs; exact absurd hs (by simp [initState])
  | next e hprev ih => exact connInv_step _ e ih

/-! ## Claim C5 -/

/-- Unfolding of `streamActiveFlag` into its conjuncts. -/
theorem streamActiveFlag_true_iff (st : ServerState) (sid : StreamId) :
    streamActiveFlag st sid = true ↔
      ∃ reg s, st.activeConnections sid = some reg ∧ st.streams sid = some s ∧
        s.streamEnded = false ∧ reg.broadcasters ≠ [] := by
  unfold streamActiveFlag
  cases hreg : st.activeConnections sid with
  | none => simp [hreg]
  | some reg =>
      cases hs : st.streams sid with
      | none => simp
      | some s =>
          simp only [Bool.and_eq_true, Bool.not_eq_true']
          constructor
          · rintro ⟨h1, h2⟩
            exact ⟨reg, s, rfl, rfl, h1, by simp only [List.isEmpty_eq_false] at h2; exact h2⟩
          · rintro ⟨reg2, s2, hr2, hs2, h1, h2⟩
            cases hr2
            cases hs2
            exact ⟨h1, by simp only [List.isEmpty_eq_false]; exact h2⟩

/-- No `frame` envelope hides among a batch of error notices. -/
theorem countFrameMsgs_errors (xs : List ConnId) (k : ErrKind) :
    countFrameMsgs (xs.map fun v => ⟨v, Msg.errorOut k⟩) = 0 := by
  induction xs with
  | nil => rfl
  | cons a l ih =>
      simp only [List.map_cons, countFrameMsgs, isFrameMsg, List.filter_cons] at ih ⊢
      exact ih

/-- C5: a connecting viewer's first messages.  When the stream is active
(session exists, not ended, a broadcaster is connected) the viewer is
immediately sent the current parameters (`style_updated`) and exactly one
cached `frame` message when the processed-frame cache is non-empty (none
otherwise); when the stream is unknown or ended it is sent
`stream_status{active:false}` and no `frame` message even if stale cache
data remains.  In both cases every message of the transition targets the
connecting viewer itself - nothing is solicited from the broadcaster. -/
theorem c5_viewer_connect (st : ServerState) (c : ConnId) (sid : StreamId)
    (p : String) :
    (streamActiveFlag st sid = true →
      (∃ s, st.streams sid = some s ∧
        ⟨c, Msg.styleUpdated s.stylePrompt (some s.processorType)⟩ ∈
          (step st (.connect c "viewer" sid p)).2) ∧
      countFrameMsgs (step st (.connect c "viewer" sid p)).2 =
        (if cachedFrameFlag st sid then 1 else 0) ∧
      ∀ o ∈ (step st (.connect c "viewer" sid p)).2, o.target = c) ∧
    (streamActiveFlag st sid = false →
      ⟨c, Msg.streamStatus none false (streamEndedFlag st sid)⟩ ∈
        (step st (.connect c "viewer" sid p)).2 ∧
      countFrameMsgs (step st (.connect c "viewer" sid p)).2 = 0 ∧
      ∀ o ∈ (step st (.connect c "viewer" sid p)).2, o.target = c) := by
  have houts : (step st (.connect c "viewer" sid p)).2 = viewerHelloOuts st c sid := rfl
  rw [houts]
  constructor
  · intro hA
    obtain ⟨reg, s, hreg, hs, hend, hb⟩ := (streamActiveFlag_true_iff st sid).1 hA
    have hcache : cachedFrameFlag st sid = !(s.latestProcessedFrame.getD []).isEmpty := by
      simp [cachedFrameFlag, hs]
    have hlist : viewerHelloOuts st c sid =
        ⟨c, Msg.styleUpdated s.stylePrompt (some s.processorType)⟩ ::
        (if !(s.latestProcessedFrame.getD []).isEmpty then
          [⟨c, Msg.frameMsg sid (s.latestProcessedFrame.getD []) false true
              s.processorType (some s.stylePrompt) (some s.strength)⟩]
         else []) := by
      simp [viewerHelloOuts, hA, hs]
    refine ⟨⟨s, hs, ?_⟩, ?_, ?_⟩
    · rw [hlist]; exact List.mem_cons_self _ _
    · rw [hlist, hcache]
      cases hc : (s.latestProcessedFrame.getD []).isEmpty <;>
        simp [countFrameMsgs, isFrameMsg]
    · intro o ho
      rw [hlist] at ho
      rcases List.mem_cons.1 ho with rfl | ho2
      · rfl
      · cases hc : (s.latestProcessedFrame.getD []).isEmpty <;> rw [hc] at ho2 <;>
          simp at ho2
        rw [ho2]
  · intro hA
    have hlist : viewerHelloOuts st c sid =
        ⟨c, Msg.streamStatus none false (streamEndedFlag st sid)⟩ ::
        (match st.streams sid with
         | none => []
         | some s => [⟨c, Msg.styleUpdated s.stylePrompt (some s.processorType)⟩]) := by
      cases hs : st.streams sid with
      | none => simp [viewerHelloOuts, hA, hs]
      | some s => simp [viewerHelloOuts, hA, hs]
    refine ⟨?_, ?_, ?_⟩
    · rw [hlist]; exact List.mem_cons_self _ _
    · rw [hlist]
      cases hs : st.streams sid <;> simp [countFrameMsgs, isFrameMsg]
    · intro o ho
      rw [hlist] at ho
      rcases List.mem_cons.1 ho with rfl | ho2
      · rfl
      · cases hs : st.streams sid <;> rw [hs] at ho2 <;> simp at ho2
        · rw [ho2]

/-- C5 witness: at `c5ActiveState` (live stream with cache) the connecting
viewer gets exactly one cached frame message; at `c5EndedState` (ended
stream with stale cache data) it gets the inactive `stream_status` and no
frame message. -/
theorem c5_viewer_connect_witness :
    countFrameMsgs (step c5ActiveState (.connect "v" "viewer" "s" "x")).2 = 1 ∧
    (⟨"v", Msg.streamStatus none false true⟩ ∈
      (step c5EndedState (.connect "v" "viewer" "s" "x")).2) ∧
    countFrameMsgs (step c5EndedState (.connect "v" "viewer" "s" "x")).2 = 0 ∧
    cachedFrameFlag c5EndedState "s" = true := by
  have h1 := (c5_viewer_connect c5ActiveState "v" "s" "x").1 (by decide)
  have h2 := (c5_viewer_connect c5EndedState "v" "s" "x").2 (by decide)
  refine ⟨?_, ?_, h2.2.1, by decide⟩
  · rw [h1.2.1, if_pos (by decide : cachedFrameFlag c5ActiveState "s" = true)]
  · have : streamEndedFlag c5EndedState "s" = true := by decide
    rw [this] at h2
    exact h2.1

/-! ## Claim C3 -/

/-- C3 amended: when an in-flight transformation fails, the session's
`latestProcessedFrame` is unchanged for every stream, the current viewers of
the affected stream each receive exactly one error notice and nothing else
is sent (in particular no `frame` envelope, so no original-frame fallback),
and the completion hook still runs - but it releases the single-flight
state only in the non-degenerate cases: if the stored latest frame equals
the frame just processed, `processing` is cleared; if it differs and the
session's processor type is a registered `global_processors` key, a new
task on the stored latest frame is started; if it differs but the processor
type is unregistered (the `"standard"` fallback, whose initialization is
commented out), the `finally` block dies on its `KeyError` and releases
nothing - the session record (its `processing` flag included) is unchanged
and no new task is started. -/
theorem c3_amended (st : ServerState) (i : Nat) (t : FlightTask)
    (ht : st.tasks[i]? = some t) :
    (∀ sid, ((step st (.taskComplete i none)).1.streams sid).map
        Session.latestProcessedFrame = (st.streams sid).map Session.latestProcessedFrame) ∧
    (step st (.taskComplete i none)).2 =
      (viewersNow st t.streamId).map (fun v => ⟨v, Msg.errorOut .processingFailed⟩) ∧
    countFrameMsgs (step st (.taskComplete i none)).2 = 0 ∧
    (∀ s, st.streams t.streamId = some s →
      (s.latestFrame = t.frameData →
        (step st (.taskComplete i none)).1.streams t.streamId =
          some { s with processing := false }) ∧
      (s.latestFrame ≠ t.frameData → s.processorType ∈ globalProcessors →
        (step st (.taskComplete i none)).1.tasks =
          st.tasks.eraseIdx i ++ [⟨t.streamId, s.latestFrame, s.processorType⟩]) ∧
      (s.latestFrame ≠ t.frameData → s.processorType ∉ globalProcessors →
        (step st (.taskComplete i none)).1.streams t.streamId = some s ∧
        (step st (.taskComplete i none)).1.tasks = st.tasks.eraseIdx i)) := by
  have hres : step st (.taskComplete i none) =
      (completionHook { st with tasks := st.tasks.eraseIdx i } t,
       (viewersNow st t.streamId).map (fun v => ⟨v, Msg.errorOut .processingFailed⟩)) := by
    simp only [step, completeStep, ht]
    rfl
  rw [hres]
  refine ⟨?_, rfl, countFrameMsgs_errors _ _, ?_⟩
  · intro sid
    cases hs : ServerState.streams { st with tasks := st.tasks.eraseIdx i } t.streamId with
    | none => rw [completionHook_gone _ _ hs]
    | some s =>
        by_cases he : s.latestFrame = t.frameData
        · rw [completionHook_idle _ _ _ hs he]
          by_cases hsid : sid = t.streamId
          · subst hsid
            have hs0 : st.streams t.streamId = some s := hs
            simp [hs0]
          · simp [hsid]
        · by_cases hp : s.processorType ∈ globalProcessors
          · rw [completionHook_restart _ _ _ hs he hp]
            rfl
          · rw [completionHook_stuck _ _ _ hs he hp]
  · intro s hs0
    have hs : ServerState.streams { st with tasks := st.tasks.eraseIdx i } t.streamId
        = some s := hs0
    refine ⟨?_, ?_, ?_⟩
    · intro he
      rw [completionHook_idle _ _ _ hs he]
      simp
    · intro he hp
      rw [completionHook_restart _ _ _ hs he hp]
      rfl
    · intro he hp
      rw [completionHook_stuck _ _ _ hs he hp]
      exact ⟨hs0, rfl⟩

/-- C3 witness: the amended failure-path behavior at `c3State` (broadcaster
and one viewer connected, the F1 task in flight). -/
theorem c3_amended_witness :
    (step c3State (.taskComplete 0 none)).2 =
      (viewersNow c3State "s").map (fun v => ⟨v, Msg.errorOut .processingFailed⟩) ∧
    ((step c3State (.taskComplete 0 none)).1.streams "s").map
      Session.latestProcessedFrame = (c3State.streams "s").map Session.latestProcessedFrame := by
  have h := c3_amended c3State 0 ⟨"s", some ("F1".toList), "lightning"⟩ (by decide)
  exact ⟨h.2.1, h.1 "s"⟩

/-! ## Claim C7 -/

/-- The model's lower strength bound is the spec's `0.1`. -/
theorem minStrength_eq_div : minStrength = 1/10 := by
  rw [minStrength, Rat.mk'_eq_divInt]
  norm_num [Rat.divInt_eq_div]

/-- The model's default strength is the spec's `0.9`. -/
theorem defaultStrength_eq_div : defaultStrength = 9/10 := by
  rw [defaultStrength, Rat.mk'_eq_divInt]
  norm_num [Rat.divInt_eq_div]

/-- The out-of-range update value used in the witness is `1.5`. -/
theorem c7BadStrength_eq_div : c7BadStrength = 3/2 := by
  rw [c7BadStrength, Rat.mk'_eq_divInt]
  norm_num [Rat.divInt_eq_div]

/-- C7: an `update_strength` whose value lies outside `[0.1, 1.0]` earns the
sender an error reply and leaves the whole server state (hence the session's
strength) unchanged; consequently, in every reachable state every session's
strength lies inside `[0.1, 1.0]`, and a fresh session starts at the default
`0.9`. -/
theorem c7_strength_validation :
    minStrength = 1/10 ∧ maxStrength = 1 ∧ defaultStrength = 9/10 ∧
    (∀ (st : ServerState) (c : ConnId) (sid : StreamId) (v : ℚ),
      st.openConns c = some ("broadcaster", sid) →
      ¬(minStrength ≤ v ∧ v ≤ maxStrength) →
      step st (.message c (.updateStrength (some v))) =
        (st, [⟨c, Msg.errorOut .invalidStrength⟩])) ∧
    (∀ st, Reachable st → ∀ sid s, st.streams sid = some s →
      minStrength ≤ s.strength ∧ s.strength ≤ maxStrength) ∧
    (∀ p, (initSession p).strength = defaultStrength) := by
  refine ⟨minStrength_eq_div, rfl, defaultStrength_eq_div, ?_, ?_, fun p => rfl⟩
  · intro st c sid v hconn hv
    simp only [step, hconn, messageStep, Option.getD_some, if_true]
    rw [if_neg hv]
  · intro st hr
    induction hr with
    | init => intro sid s hs; exact absurd hs (by simp [initState])
    | next e hprev ih =>
        intro sid s hs
        rcases step_sessionEvolves _ e sid with h | h | ⟨p, hpre, hpost⟩ | ⟨s0, hpre, hcase⟩
        · rw [h] at hs; exact ih sid s hs
        · rw [h] at hs; cases hs
        · rw [hpost] at hs
          cases hs
          have hd : minStrength ≤ defaultStrength ∧ defaultStrength ≤ maxStrength := by decide
          exact hd
        · rcases hcase with ⟨p2, hpost⟩ | ⟨p2, hpost⟩ | ⟨p2, hpost⟩ |
            ⟨v, hlo, hhi, hpost⟩ | ⟨f, hpost | hpost⟩ | hpost | hpost |
            ⟨htag, r, hpost | hpost⟩
          · rw [hpost] at hs; cases hs; exact ih sid s0 hpre
          · rw [hpost] at hs; cases hs; exact ih sid s0 hpre
          · rw [hpost] at hs; cases hs; exact ih sid s0 hpre
          · rw [hpost] at hs; cases hs; exact ⟨hlo, hhi⟩
          · rw [hpost] at hs; cases hs; exact ih sid s0 hpre
          · rw [hpost] at hs; cases hs; exact ih sid s0 hpre
          · rw [hpost] at hs; cases hs; exact ih sid s0 hpre
          · rw [hpost] at hs; cases hs; exact ih sid s0 hpre
          · rw [hpost] at hs; cases hs; exact ih sid s0 hpre
          · rw [hpost] at hs; cases hs; exact ih sid s0 hpre

/-- C7 witness: `update_strength{strength: 1.5}` on the broadcaster of
`c7State` is rejected with no mutation, while the stored strength is the
in-range default `0.9`. -/
theorem c7_strength_validation_witness :
    c7BadStrength = 3/2 ∧
    step c7State (.message "b" (.updateStrength (some c7BadStrength))) =
      (c7State, [⟨"b", Msg.errorOut .invalidStrength⟩]) ∧
    (c7State.streams "s").map Session.strength = some defaultStrength ∧
    (minStrength ≤ (initSession "lightning").strength ∧
      (initSession "lightning").strength ≤ maxStrength) := by
  refine ⟨c7BadStrength_eq_div, ?_, by decide, ?_⟩
  · exact c7_strength_validation.2.2.2.1 c7State "b" "s" c7BadStrength
      (by decide) (by decide)
  · exact c7_strength_validation.2.2.2.2.1 c7State
      (Reachable.runTrace _ Reachable.init _) "s" (initSession "lightning") (by decide)

/-! ## Claim C2 -/

/-- C2 amended: `end_stream` sets `ended` and clears `latestProcessedFrame`
in the same transition; whenever `ended` flips to true the cache is cleared
with it; and the only transition that can write a non-null
`latestProcessedFrame` is a `taskComplete` with a successful result - in
particular a transformation in flight at `end_stream` time may rewrite the
cache after it completes (the completion path never rechecks `ended`). -/
theorem c2_amended :
    (∀ (st : ServerState) (c : ConnId) (sid : StreamId) (s : Session),
      st.openConns c = some ("broadcaster", sid) → st.streams sid = some s →
      (step st (.message c .endStream)).1.streams sid =
        some { s with streamEnded := true, latestProcessedFrame := none }) ∧
    (∀ (st : ServerState) (e : Event) (sid : StreamId) (s0 s1 : Session),
      st.streams sid = some s0 → (step st e).1.streams sid = some s1 →
      s0.streamEnded = false → s1.streamEnded = true →
      s1.latestProcessedFrame = none) ∧
    (∀ (st : ServerState) (e : Event) (sid : StreamId) (s0 s1 : Session),
      st.streams sid = some s0 → (step st e).1.streams sid = some s1 →
      s1.latestProcessedFrame ≠ s0.latestProcessedFrame →
      s1.latestProcessedFrame.isSome = true →
      ∃ i r, e = Event.taskComplete i (some r)) := by
  refine ⟨?_, ?_, ?_⟩
  · intro st c sid s hconn hs
    simp only [step, hconn, messageStep, if_true]
    simp only [hs]
    simp
  · intro st e sid s0 s1 h0 h1 hE0 hE1
    rcases step_sessionEvolves st e sid with h | h | ⟨p, hpre, hpost⟩ | ⟨s, hpre, hcase⟩
    · rw [h, h0] at h1; cases h1; simp [hE0] at hE1
    · rw [h] at h1; simp at h1
    · rw [hpre] at h0; simp at h0
    · rw [hpre] at h0
      cases h0
      rcases hcase with ⟨p2, hpost⟩ | ⟨p2, hpost⟩ | ⟨p2, hpost⟩ |
        ⟨v, hlo, hhi, hpost⟩ | ⟨f, hpost | hpost⟩ | hpost | hpost |
        ⟨htag, r, hpost | hpost⟩
      · rw [hpost] at h1; cases h1; simp [hE0] at hE1
      · rw [hpost] at h1; cases h1; simp [hE0] at hE1
      · rw [hpost] at h1; cases h1; simp [hE0] at hE1
      · rw [hpost] at h1; cases h1; simp [hE0] at hE1
      · rw [hpost] at h1; cases h1; simp [hE0] at hE1
      · rw [hpost] at h1; cases h1; simp [hE0] at hE1
      · rw [hpost] at h1; cases h1; rfl
      · rw [hpost] at h1; cases h1; simp [hE0] at hE1
      · rw [hpost] at h1; cases h1; simp [hE0] at hE1
      · rw [hpost] at h1; cases h1; simp [hE0] at hE1
  · intro st e sid s0 s1 h0 h1 hne hsome
    rcases step_sessionEvolves st e sid with h | h | ⟨p, hpre, hpost⟩ | ⟨s, hpre, hcase⟩
    · rw [h, h0] at h1; cases h1; exact absurd rfl hne
    · rw [h] at h1; simp at h1
    · rw [hpre] at h0; simp at h0
    · rw [hpre] at h0
      cases h0
      rcases hcase with ⟨p2, hpost⟩ | ⟨p2, hpost⟩ | ⟨p2, hpost⟩ |
        ⟨v, hlo, hhi, hpost⟩ | ⟨f, hpost | hpost⟩ | hpost | hpost |
        ⟨htag, r, hpost | hpost⟩
      · rw [hpost] at h1; cases h1; exact absurd rfl hne
      · rw [hpost] at h1; cases h1; exact absurd rfl hne
      · rw [hpost] at h1; cases h1; exact absurd rfl hne
      · rw [hpost] at h1; cases h1; exact absurd rfl hne
      · rw [hpost] at h1; cases h1; exact absurd rfl hne
      · rw [hpost] at h1; cases h1; exact absurd rfl hne
      · rw [hpost] at h1; cases h1; simp at hsome
      · rw [hpost] at h1; cases h1; exact absurd rfl hne
      · exact htag
      · exact htag

/-- C2 witness: the amended claim at `c2State` (its session holds F1 with a
task in flight): `end_stream` yields the ended session with a cleared cache,
and the subsequent cache rewrite is a successful `taskComplete`. -/
theorem c2_amended_witness :
    (step c2State (.message "b" .endStream)).1.streams "s" =
      some { c2Sess with streamEnded := true, latestProcessedFrame := none } ∧
    (∃ i r, Event.taskComplete 0 (some ("P1".toList)) =
      Event.taskComplete i (some r)) := by
  constructor
  · exact c2_amended.1 c2State "b" "s" c2Sess (by decide) (by decide)
  · exact c2_amended.2.2 (run initState (c2Trace.take 3))
      (.taskComplete 0 (some ("P1".toList))) "s"
      { c2Sess with streamEnded := true, latestProcessedFrame := none }
      { c2Sess with streamEnded := true, processing := false,
                    latestProcessedFrame := some ("data:image/jpeg;base64,P1".toList) }
      (by decide) (by decide) (by decide) (by decide)

/-! ## Claim C6 -/

/-- C6 amended: a session exists only for ids holding at least one
registered broadcaster or viewer connection (viewer-only ids can hold
connections with no session, so the converse fails); the disconnect that
empties both role lists deletes the registry entry and the session in the
same transition; and a `check_stream_status` for an id with no session
reports `active:false, ended:false`. -/
theorem c6_amended :
    (∀ st, Reachable st → ∀ sid s, st.streams sid = some s →
      ∃ reg, st.activeConnections sid = some reg ∧
        (reg.broadcasters ≠ [] ∨ reg.viewers ≠ [])) ∧
    (∀ (st : ServerState) (c : ConnId) (ct : String) (sid : StreamId) (reg : Conns),
      st.openConns c = some (ct, sid) → st.activeConnections sid = some reg →
      ((ct = "broadcaster" ∧ c ∈ reg.broadcasters ∧ reg.broadcasters.erase c = [] ∧
          reg.viewers = []) ∨
       (ct ≠ "broadcaster" ∧ c ∈ reg.viewers ∧ reg.broadcasters = [] ∧
          reg.viewers.erase c = [])) →
      (step st (.disconnect c)).1.streams sid = none ∧
      (step st (.disconnect c)).1.activeConnections sid = none) ∧
    (∀ (st : ServerState) (c : ConnId) (ct : String) (sid rsid : StreamId),
      st.openConns c = some (ct, sid) → st.streams rsid = none →
      (step st (.message c (.checkStreamStatus (some rsid)))).2 =
        [⟨c, Msg.streamStatus (some rsid) false false⟩]) := by
  refine ⟨fun st hr => connInv_reachable st hr, ?_, ?_⟩
  · intro st c ct sid reg hconn hreg hscen
    have hstep : step st (.disconnect c) = disconnectStep st c ct sid := by
      simp only [step, hconn]
    rw [hstep]
    unfold disconnectStep
    simp only [hreg]
    rcases hscen with ⟨hct, hmem, hb, hv⟩ | ⟨hct, hmem, hb, hv⟩
    · subst hct
      rw [if_pos rfl, if_pos hmem]
      by_cases hbv : c ∈ reg.broadcasterViewers
      · rw [if_pos hbv]
        unfold broadcasterDisconnect
        split
        · split
          · unfold finishCleanup
            split
            · constructor <;> simp
            · rename_i hcond
              exact absurd ⟨hb, hv⟩ hcond
          · unfold finishCleanup
            split
            · constructor <;> simp
            · rename_i hcond
              exact absurd ⟨hb, hv⟩ hcond
        · rename_i hcond
          exact absurd hb hcond
      · rw [if_neg hbv]
        unfold broadcasterDisconnect
        split
        · split
          · unfold finishCleanup
            split
            · constructor <;> simp
            · rename_i hcond
              exact absurd ⟨hb, hv⟩ hcond
          · unfold finishCleanup
            split
            · constructor <;> simp
            · rename_i hcond
              exact absurd ⟨hb, hv⟩ hcond
        · rename_i hcond
          exact absurd hb hcond
    · rw [if_neg hct]
      rw [if_pos hmem]
      unfold finishCleanup
      split
      · constructor <;> simp
      · rename_i hcond
        exact absurd ⟨hb, hv⟩ hcond
  · intro st c ct sid rsid hconn hnone
    have h1 : streamEndedFlag st rsid = false := by
      unfold streamEndedFlag
      rw [hnone]
    have h2 : streamActiveFlag st rsid = false := by
      cases hc2 : st.activeConnections rsid <;>
        simp [streamActiveFlag, hc2, hnone]
    simp only [step, hconn, messageStep, statusStep]
    simp [h1, h2]

/-- C6 witness: the amended claim at concrete states - the broadcaster-only
stream `s2` satisfies the session-implies-connection invariant; its single
disconnect deletes session and registry entry together; and after the full
lifecycle of `c6GoneState`, `check_stream_status` for `s2` reports
`active:false, ended:false`. -/
theorem c6_amended_witness :
    (∃ reg, (run initState [Event.connect "b" "broadcaster" "s2" "lightning"]).activeConnections "s2"
        = some reg ∧ (reg.broadcasters ≠ [] ∨ reg.viewers ≠ [])) ∧
    ((step (run initState [Event.connect "b" "broadcaster" "s2" "lightning"])
        (.disconnect "b")).1.streams "s2" = none ∧
     (step (run initState [Event.connect "b" "broadcaster" "s2" "lightning"])
        (.disconnect "b")).1.activeConnections "s2" = none) ∧
    (step c6GoneState (.message "w" (.checkStreamStatus (some "s2")))).2 =
      [⟨"w", Msg.streamStatus (some "s2") false false⟩] := by
  refine ⟨?_, ?_, ?_⟩
  · exact c6_amended.1 _ (Reachable.runTrace _ Reachable.init _) "s2"
      (initSession "lightning") (by decide)
  · exact c6_amended.2.1 (run initState [Event.connect "b" "broadcaster" "s2" "lightning"])
      "b" "broadcaster" "s2" ⟨["b"], [], []⟩ (by decide) (by decide)
      (Or.inl ⟨rfl, by decide, by decide, rfl⟩)
  · exact c6_amended.2.2 c6GoneState "w" "viewer" "other" "s2" (by decide) (by decide)

/-- C10 witness: the amended claim at `c10State`, whose session for `s` is
ended; the reconnect with parameter `"foo"` leaves it ended and only
rewrites `processorType` to `"standard"`. -/
theorem c10_amended_witness :
    (step c10State (.connect "b2" "broadcaster" "s" "foo")).1.streams "s" =
      some { c10Sess with processorType := "standard" } ∧
    c10Sess.streamEnded = true := by
  have h := (c10_amended c10State "b2" "s" "foo" c10Sess (by decide)).1
  rw [h]
  exact ⟨rfl, rfl⟩

end Cream
